import Mathlib

/-!
Shallow embedding of `src/video_core/renderer_vulkan/vk_pipeline_cache.cpp`
(shadPS4 pipeline cache) and proofs about the claims of its specification.

Conventions of the embedding:
* machine integers (`u32`, `u64`) become `Nat`; the only place where 64-bit
  wraparound matters is `HashCombine`, where every operation is taken `% 2^64`;
* Vulkan formats become `Nat`, with `0` standing for `vk::Format::eUndefined`
  (its actual numeric value in Vulkan);
* the register snapshot `liverpool->regs` becomes the structure `Regs`
  holding exactly the register fields the source reads; accessors of the
  register model that live outside this file's source (for example
  `ColorTargetMask::GetMask`, bit-field extraction of 4 bits per target)
  are given their documented semantics;
* the external collaborators (the LiverpoolToVK format tables, the shader
  translator `TranslateProgram`/`EmitSPIRV`, the instance capability query)
  are pure functions bundled in the structure `Env`; the pipeline-cache code
  never looks inside them;
* the driver objects (shader modules, pipelines) become `Nat` identifiers
  drawn from counters, so "same object instance" is identifier equality;
* the mutable caches (`program_cache`, `graphics_pipelines`,
  `compute_pipelines`) become association lists threaded through explicit
  state (`CState`, `PCState`).
-/

/-- Shader stages in the order of `Shader::Stage`; `StageFromIndex(i)` is the
direct cast used by the source, so loop index 0 is the fragment slot and
index 1 the vertex slot. -/
inductive Stage where
  | fragment
  | vertex
  | geometry
  | es
  | hs
  | localStage
  | compute
deriving DecidableEq

/-- `Shader::StageFromIndex`: direct cast of the hardware stage slot index.
Slot 3 is the slot the source probes in its tessellation check. -/
def StageFromIndex (i : Nat) : Stage :=
  match i with
  | 0 => .fragment
  | 1 => .vertex
  | 2 => .geometry
  | 3 => .es
  | 4 => .hs
  | _ => .localStage

/-- Number of graphics shader stage slots walked by `RefreshGraphicsKey`. -/
def MaxShaderStages : Nat := 5

/-- Number of hardware color buffer slots (`Liverpool::NumColorBuffers`). -/
def NumColorBuffers : Nat := 8

/-- `Liverpool::ColorBuffer::SwapMode` (component swizzle selector). -/
inductive SwapMode where
  | standard
  | alternate
  | standardRev
  | alternateRev
deriving DecidableEq

/-- `Liverpool::PrimitiveType`, collapsed to the constructors the source
distinguishes (`None`, `PatchPrimitive`, everything else). -/
inductive PrimitiveType where
  | noneType
  | patch
  | triangle
  | otherPrim (n : Nat)
deriving DecidableEq

/-- `Liverpool::ColorControl::OperationMode`, collapsed to the constructors
the source distinguishes. -/
inductive OperationMode where
  | disableMode
  | normalMode
  | eliminateFastClear
  | fmaskDecompress
  | otherMode (n : Nat)
deriving DecidableEq

/-- `Liverpool::ClipSpace`. -/
inductive ClipSpace where
  | minusWToW
  | zeroToW
deriving DecidableEq

/-- One vertex output slot role (`Shader::VsOutput`). -/
inductive VsOutput where
  | noneOut
  | pointSprite
  | edgeFlag
  | gsCutFlag
  | killFlag
  | gsMrtIndex
  | gsVpIndex
  | clipDist (i : Nat)
  | cullDist (i : Nat)
deriving DecidableEq

/-- A 4-slot vertex output mapping (`Shader::VsOutputMap`). -/
structure VsOutputMap where
  x : VsOutput
  y : VsOutput
  z : VsOutput
  w : VsOutput
deriving DecidableEq

/-- One fragment interpolant descriptor built by `BuildRuntimeInfo`. -/
structure PsInput where
  param_index : Nat
  is_default : Bool
  is_flat : Bool
  default_value : Nat
deriving DecidableEq

/-- `Shader::RuntimeInfo`: the stage-specific descriptor handed to the
translator.  Fields not set for a given stage keep their zero defaults,
mirroring `RuntimeInfo{stage}` value initialization. -/
structure RuntimeInfo where
  stage : Stage
  num_user_data : Nat := 0
  num_input_vgprs : Nat := 0
  num_allocated_vgprs : Nat := 0
  vs_outputs : List VsOutputMap := []
  emulate_depth_negative_one_to_one : Bool := false
  mrt_swizzles : List SwapMode := []
  fs_inputs : List PsInput := []
  workgroup_size : Nat × Nat × Nat := (0, 0, 0)
  tgid_enable : Bool × Bool × Bool := (false, false, false)
  shared_memory_size : Nat := 0
deriving DecidableEq

/-- The part of `Shader::Info` this core consumes: the bytecode hash, the
descriptor binding count (`Info::NumBindings()`), and the fragment
multi-render-target usage mask (`Info::mrt_mask`). -/
structure ShaderInfo where
  stage : Stage
  pgm_hash : Nat
  num_bindings : Nat
  mrt_mask : Nat
deriving DecidableEq

/-- `Shader::ShaderParams` as consumed here: the cache key is the raw
bytecode content hash. -/
structure ShaderParams where
  hash : Nat
deriving DecidableEq

/-- Modelled from the spec: `Shader::StageSpecialization` — "runtime info +
starting binding index" for a fixed program info; equality of descriptors
governs permutation reuse. -/
structure StageSpecialization where
  info : ShaderInfo
  runtime_info : RuntimeInfo
  start_binding : Nat
deriving DecidableEq

/-- One stage's program registers as read by the source: program address,
binary-info validity and content hash (`Liverpool::GetBinaryInfo`,
`Liverpool::GetParams`), and the settings consumed by `BuildRuntimeInfo`. -/
structure ShaderProgramRegs where
  address : Nat
  bininfo_valid : Bool
  shader_hash : Nat
  num_user_regs : Nat
  vgpr_comp_cnt : Nat
  num_vgprs : Nat
deriving DecidableEq

/-- Zero program registers (used where the register file has no entry). -/
def SPRzero : ShaderProgramRegs := ⟨0, false, 0, 0, 0, 0⟩

/-- One hardware color buffer binding; `valid` is the source's
`operator bool` test for a bound buffer. -/
structure ColorBuffer where
  valid : Bool
  dfmt : Nat
  nfmt : Nat
  comp_swap : SwapMode
  blend_bypass : Bool
deriving DecidableEq

/-- Unbound color buffer. -/
def CBzero : ColorBuffer := ⟨false, 0, 0, .standard, false⟩

/-- One `Liverpool::BlendControl` register: the blend-enable bit the source
rewrites, plus the remaining function/factor bits it copies untouched. -/
structure BlendControl where
  enable : Bool
  func_bits : Nat
deriving DecidableEq

/-- Zero blend control. -/
def BCzero : BlendControl := ⟨false, 0⟩

/-- `Liverpool::DepthControl`: the three enable bits the source rewrites,
plus the remaining comparison-function bits it copies untouched. -/
structure DepthControl where
  depth_enable : Bool
  depth_write_enable : Bool
  stencil_enable : Bool
  func_bits : Nat
deriving DecidableEq

/-- `Liverpool::VsOutputControl` as consumed by `GatherVertexOutputs`:
six misc-vector flags and two 8-bit clip/cull distance enable masks. -/
structure VsOutputControl where
  use_vtx_point_size : Bool
  use_vtx_edge_flag : Bool
  use_vtx_gs_cut_flag : Bool
  use_vtx_kill_flag : Bool
  use_vtx_render_target_idx : Bool
  use_vtx_viewport_idx : Bool
  clip_dist_ena : Nat
  cull_dist_ena : Nat
deriving DecidableEq

/-- One `regs.ps_inputs[i]` interpolant register. -/
structure PsInputReg where
  input_offset : Nat
  use_default : Bool
  flat_shade : Bool
  default_value : Nat
deriving DecidableEq

/-- The compute program registers consumed by the source. -/
structure CsProgramRegs where
  num_user_regs : Nat
  num_vgprs : Nat
  num_thread_x : Nat
  num_thread_y : Nat
  num_thread_z : Nat
  tgid_bits : Nat
  shared_mem_size : Nat
  shader_hash : Nat
deriving DecidableEq

/-- The register fields of `liverpool->regs` consumed by pipeline key
construction — exactly the state `RefreshGraphicsKey`, `RefreshComputeKey`
and `BuildRuntimeInfo` read. -/
structure Regs where
  primitive_type : PrimitiveType
  color_control_mode : OperationMode
  depth_control : DepthControl
  depth_clear_enable : Bool
  needs_bias : Bool
  z_format : Nat
  stencil_format_reg : Nat
  stencil_control : Nat
  enable_primitive_restart : Nat
  primitive_restart_index : Nat
  polygon_mode : Nat
  cull_mode : Nat
  clip_space : ClipSpace
  front_face : Nat
  num_samples : Nat
  color_buffers : List ColorBuffer
  blend_control : List BlendControl
  color_target_mask : Nat
  color_shader_mask : Nat
  stage_enable : Nat
  programs : List ShaderProgramRegs
  vs_output_control : VsOutputControl
  ps_inputs : List PsInputReg
  num_interp : Nat
  cs_program : CsProgramRegs
deriving DecidableEq

/-- The full register snapshot: the consumed registers plus the rest of the
register file, which key construction must not read. -/
structure RegSnapshot where
  regs : Regs
  other_regs : Nat
deriving DecidableEq

/-- The external collaborators, bundled as pure functions:
the LiverpoolToVK format tables, the instance capability query, and the
shader translator (`Shader::Info` population by `TranslateProgram`, the
binding advance performed by `EmitSPIRV`).  `bindingCount` is only a
vocabulary for stating translator-consistency hypotheses; no model function
reads it.  `denylist` is the operator-overridable skip set of spec §4.5
(the compiled-in value is `skip_hashes`). -/
structure Env where
  depthClipControlSupported : Bool
  depthFormat : Nat → Nat → Nat
  surfaceFormat : Nat → Nat → Nat
  adjustColorBufferFormat : Nat → SwapMode → Nat
  translatedInfo : Stage → ShaderParams → RuntimeInfo → ShaderInfo
  emitAdvance : RuntimeInfo → ShaderInfo → Nat
  bindingCount : Nat → Nat
  denylist : List Nat

/-- Extract the 4-bit mask of color target `cb` from a color target mask
register (`ColorTargetMask::GetMask`). -/
def getMask4 (m cb : Nat) : Nat := (m >>> (4 * cb)) % 16

/-- Write the 4-bit mask of compacted target `idx`
(`cb_shader_mask.SetMask`). -/
def setMask4 (m idx v : Nat) : Nat :=
  (m / 2 ^ (4 * idx + 4)) * 2 ^ (4 * idx + 4) + (v % 16) * 2 ^ (4 * idx) + m % 2 ^ (4 * idx)

/-- `HashCombine` from the source: `seed ^ (hash + 0x9e3779b9 + (seed << 6)
+ (seed >> 2))` in 64-bit arithmetic. -/
def HashCombine (seed hash : Nat) : Nat :=
  (seed % 2 ^ 64) ^^^ ((hash + 0x9e3779b9 + (seed % 2 ^ 64) * 64 + (seed % 2 ^ 64) / 4) % 2 ^ 64)

/-- The compiled-in denylist of `ShouldSkipShader` — the empty array in this
build (every populated variant is commented out in the source). -/
def skip_hashes : List Nat := []

/-- `ShouldSkipShader`: membership of the content hash in the denylist. -/
def ShouldSkipShader (skip : List Nat) (shader_hash : Nat) : Bool :=
  skip.contains shader_hash

/-- `GatherVertexOutputs`'s `add_output` helper: append a 4-slot mapping
when any member is enabled. -/
def addOutput (x y z w : VsOutput) (l : List VsOutputMap) : List VsOutputMap :=
  if x ≠ .noneOut ∨ y ≠ .noneOut ∨ z ≠ .noneOut ∨ w ≠ .noneOut then
    l ++ [⟨x, y, z, w⟩]
  else l

/-- `GatherVertexOutputs`: the fixed ordered scan of the misc vector and the
two clip/cull distance vectors. -/
def GatherVertexOutputs (ctl : VsOutputControl) : List VsOutputMap :=
  let l0 := addOutput
    (if ctl.use_vtx_point_size then .pointSprite else .noneOut)
    (if ctl.use_vtx_edge_flag then .edgeFlag
     else if ctl.use_vtx_gs_cut_flag then .gsCutFlag else .noneOut)
    (if ctl.use_vtx_kill_flag then .killFlag
     else if ctl.use_vtx_render_target_idx then .gsMrtIndex else .noneOut)
    (if ctl.use_vtx_viewport_idx then .gsVpIndex else .noneOut)
    []
  let dist := fun (i : Nat) =>
    if ctl.clip_dist_ena.testBit i then VsOutput.clipDist i
    else if ctl.cull_dist_ena.testBit i then VsOutput.cullDist i
    else VsOutput.noneOut
  let l1 := addOutput (dist 0) (dist 1) (dist 2) (dist 3) l0
  addOutput (dist 4) (dist 5) (dist 6) (dist 7) l1

/-- `PipelineCache::BuildRuntimeInfo`.  For the fragment stage the swizzle
table is read from the graphics key under construction, passed here as
`mrts`. -/
def BuildRuntimeInfo (env : Env) (regs : Regs) (mrts : List SwapMode) (stage : Stage) :
    RuntimeInfo :=
  let base : RuntimeInfo := { stage := stage }
  match stage with
  | .vertex =>
    let vs := regs.programs.getD 1 SPRzero
    { base with
      num_user_data := vs.num_user_regs
      num_input_vgprs := vs.vgpr_comp_cnt
      num_allocated_vgprs := vs.num_vgprs * 4
      vs_outputs := GatherVertexOutputs regs.vs_output_control
      emulate_depth_negative_one_to_one :=
        !env.depthClipControlSupported && regs.clip_space == .minusWToW }
  | .fragment =>
    let ps := regs.programs.getD 0 SPRzero
    { base with
      num_user_data := ps.num_user_regs
      num_allocated_vgprs := ps.num_vgprs * 4
      mrt_swizzles := mrts
      fs_inputs := (List.range regs.num_interp).map fun i =>
        let r := regs.ps_inputs.getD i ⟨0, false, false, 0⟩
        ⟨r.input_offset, r.use_default, r.flat_shade, r.default_value⟩ }
  | .compute =>
    let cs := regs.cs_program
    { base with
      num_user_data := cs.num_user_regs
      num_allocated_vgprs := cs.num_vgprs * 4
      workgroup_size := (cs.num_thread_x, cs.num_thread_y, cs.num_thread_z)
      tgid_enable := (cs.tgid_bits.testBit 0, cs.tgid_bits.testBit 1, cs.tgid_bits.testBit 2)
      shared_memory_size := cs.shared_mem_size }
  | _ => base

/-- `GraphicsPipelineKey`: the canonical, zero-initialized graphics key.
Array-valued fields are 8-entry (color targets) and 5-entry (stage hashes)
lists maintained by construction. -/
structure GraphicsPipelineKey where
  depth_stencil : DepthControl
  depth_bias_enable : Bool
  depth_format : Nat
  stencil : Nat
  stencil_format : Nat
  prim_type : PrimitiveType
  enable_primitive_restart : Nat
  primitive_restart_index : Nat
  polygon_mode : Nat
  cull_mode : Nat
  clip_space : ClipSpace
  front_face : Nat
  num_samples : Nat
  color_formats : List Nat
  blend_controls : List BlendControl
  write_masks : List Nat
  mrt_swizzles : List SwapMode
  stage_hashes : List Nat
  mrt_mask : Nat
  cb_shader_mask : Nat
deriving DecidableEq

/-- The `memset`-zeroed graphics key the refresh starts from. -/
def GraphicsPipelineKey.zeroed : GraphicsPipelineKey where
  depth_stencil := ⟨false, false, false, 0⟩
  depth_bias_enable := false
  depth_format := 0
  stencil := 0
  stencil_format := 0
  prim_type := .noneType
  enable_primitive_restart := 0
  primitive_restart_index := 0
  polygon_mode := 0
  cull_mode := 0
  clip_space := .minusWToW
  front_face := 0
  num_samples := 0
  color_formats := List.replicate 8 0
  blend_controls := List.replicate 8 BCzero
  write_masks := List.replicate 8 0
  mrt_swizzles := List.replicate 8 .standard
  stage_hashes := List.replicate 5 0
  mrt_mask := 0
  cb_shader_mask := 0

/-- First compaction pass of `RefreshGraphicsKey`: walk the hardware color
buffer slots in order, skip disabled output mode / unbound buffers /
masked-off targets, and write the adjusted surface format (and, when no
format adjustment occurred, the swizzle) of each surviving slot at the next
compacted index. -/
def firstPassAux (env : Env) (regs : Regs) :
    List Nat → Nat → List Nat → List SwapMode → List Nat × List SwapMode
  | [], _, fmts, swz => (fmts, swz)
  | cb :: rest, remapped, fmts, swz =>
    let col_buf := regs.color_buffers.getD cb CBzero
    if regs.color_control_mode = .disableMode ∨ ¬col_buf.valid ∨
        getMask4 regs.color_target_mask cb = 0 then
      firstPassAux env regs rest remapped fmts swz
    else
      let base_format := env.surfaceFormat col_buf.dfmt col_buf.nfmt
      let adjusted := env.adjustColorBufferFormat base_format col_buf.comp_swap
      let fmts1 := fmts.set remapped adjusted
      let swz1 := if base_format = adjusted then swz.set remapped col_buf.comp_swap else swz
      firstPassAux env regs rest (remapped + 1) fmts1 swz1

/-- Second compaction pass of `RefreshGraphicsKey`: slots failing the
first-pass gates or unreferenced by the fragment mrt mask have
`color_formats`/`mrt_swizzles` cleared at the raw slot index `cb`, while
surviving slots receive blend control (enable forced off under
`blend_bypass`), write mask and shader output mask at the compacted index. -/
def secondPassAux (regs : Regs) (mrt_mask : Nat) :
    List Nat → Nat → GraphicsPipelineKey → GraphicsPipelineKey
  | [], _, key => key
  | cb :: rest, remapped, key =>
    let col_buf := regs.color_buffers.getD cb CBzero
    if regs.color_control_mode = .disableMode ∨ ¬col_buf.valid ∨
        getMask4 regs.color_target_mask cb = 0 ∨ ¬mrt_mask.testBit cb then
      secondPassAux regs mrt_mask rest remapped
        { key with
          color_formats := key.color_formats.set cb 0
          mrt_swizzles := key.mrt_swizzles.set cb .standard }
    else
      let bc := regs.blend_control.getD cb BCzero
      secondPassAux regs mrt_mask rest (remapped + 1)
        { key with
          blend_controls := key.blend_controls.set remapped
            ⟨bc.enable && !col_buf.blend_bypass, bc.func_bits⟩
          write_masks := key.write_masks.set remapped (getMask4 regs.color_target_mask cb)
          cb_shader_mask := setMask4 key.cb_shader_mask remapped
            (getMask4 regs.color_shader_mask cb) }

/-- The part of `RefreshGraphicsKey` before the stage loop: depth/stencil,
raster and primitive state plus the first compaction pass, applied to the
zeroed key in source order. -/
def buildBaseKey (env : Env) (regs : Regs) : GraphicsPipelineKey :=
  let ds1 : DepthControl :=
    { regs.depth_control with
      depth_write_enable :=
        regs.depth_control.depth_write_enable && !regs.depth_clear_enable }
  let ds_format := env.depthFormat regs.z_format regs.stencil_format_reg
  let depth_format := if regs.z_format ≠ 0 then ds_format else 0
  let ds2 :=
    if regs.depth_control.depth_enable then
      { ds1 with depth_enable := depth_format != 0 }
    else ds1
  let stencil_format := if regs.stencil_format_reg ≠ 0 then depth_format else 0
  let ds3 :=
    if ds2.stencil_enable then
      { ds2 with stencil_enable := stencil_format != 0 }
    else ds2
  let fp := firstPassAux env regs (List.range NumColorBuffers) 0
    (List.replicate 8 0) (List.replicate 8 .standard)
  { GraphicsPipelineKey.zeroed with
    depth_stencil := ds3
    depth_bias_enable := regs.needs_bias
    depth_format := depth_format
    stencil := regs.stencil_control
    stencil_format := stencil_format
    prim_type := regs.primitive_type
    enable_primitive_restart := regs.enable_primitive_restart % 2
    primitive_restart_index := regs.primitive_restart_index
    polygon_mode := regs.polygon_mode
    cull_mode := regs.cull_mode
    clip_space := regs.clip_space
    front_face := regs.front_face
    num_samples := regs.num_samples
    color_formats := fp.1
    mrt_swizzles := fp.2 }

/-- One compiled permutation of a program: the module identifier paired with
the specialization it was compiled for. -/
structure PermEntry where
  module : Nat
  spec : StageSpecialization
deriving DecidableEq

/-- A shader program cache entry: the info of its first permutation plus the
permutation list (`Program::modules`). -/
structure Program where
  info : ShaderInfo
  modules : List PermEntry
deriving DecidableEq

/-- The shader program cache state: the program map keyed by content hash,
the module identifier counter, and the log of content hashes handed to the
shader translator (one entry per `CompileModule` call). -/
structure CState where
  programs : List (Nat × Program)
  next_module : Nat
  translate_log : List Nat
deriving DecidableEq

/-- Association list lookup by decidable key equality. -/
def alook {α β : Type} [DecidableEq α] : List (α × β) → α → Option β
  | [], _ => none
  | (k, v) :: rest, a => if k = a then some v else alook rest a

/-- Replace the first binding of a key in an association list. -/
def aupdate {α β : Type} [DecidableEq α] : List (α × β) → α → β → List (α × β)
  | [], _, _ => []
  | (k, v) :: rest, a, b => if k = a then (a, b) :: rest else (k, v) :: aupdate rest a b

/-- Linear scan of the permutation list for an equal specialization
descriptor; returns the matched index and module. -/
def findSpec : List PermEntry → StageSpecialization → Option (Nat × Nat)
  | [], _ => none
  | e :: rest, sp =>
    if e.spec = sp then some (0, e.module)
    else (findSpec rest sp).map fun p => (p.1 + 1, p.2)

/-- `PipelineCache::CompileModule` as seen by the cache: allocate a fresh
module identifier, log the translated content hash, and advance the binding
cursor by the amount `EmitSPIRV` consumes for this translation. -/
def compileModule (env : Env) (params : ShaderParams) (rt : RuntimeInfo)
    (info : ShaderInfo) (binding : Nat) (cst : CState) : Nat × Nat × CState :=
  (cst.next_module, binding + env.emitAdvance rt info,
   { cst with
     next_module := cst.next_module + 1
     translate_log := cst.translate_log ++ [params.hash] })

/-- The `(info, module, dedup hash)` triple returned by `GetProgram`. -/
structure ProgResult where
  info : ShaderInfo
  module : Nat
  hash : Nat
deriving DecidableEq

/-- `PipelineCache::GetProgram`: two-level lookup.  A new content hash
creates the program and compiles permutation 0 at the current binding
offset; a known hash computes this call's specialization from the program's
info, the fresh runtime info and the current binding value, then either
reuses the first matching permutation (advancing the binding cursor by the
program's binding count) or compiles and appends a new one. -/
def GetProgram (env : Env) (regs : Regs) (mrts : List SwapMode) (stage : Stage)
    (params : ShaderParams) (binding : Nat) (cst : CState) :
    ProgResult × Nat × CState :=
  let runtime_info := BuildRuntimeInfo env regs mrts stage
  match alook cst.programs params.hash with
  | none =>
    let info := env.translatedInfo stage params runtime_info
    let start_binding := binding
    let (module, binding1, cst1) := compileModule env params runtime_info info binding cst
    let spec : StageSpecialization := ⟨info, runtime_info, start_binding⟩
    let program : Program := ⟨info, [⟨module, spec⟩]⟩
    (⟨info, module, HashCombine params.hash 0⟩, binding1,
     { cst1 with programs := (params.hash, program) :: cst1.programs })
  | some program =>
    let info := program.info
    let spec : StageSpecialization := ⟨info, runtime_info, binding⟩
    match findSpec program.modules spec with
    | some im =>
      (⟨info, im.2, HashCombine params.hash im.1⟩, binding + info.num_bindings, cst)
    | none =>
      let perm_idx := program.modules.length
      let new_info := env.translatedInfo stage params runtime_info
      let (module, binding1, cst1) := compileModule env params runtime_info new_info binding cst
      let program1 : Program := { program with modules := program.modules ++ [⟨module, spec⟩] }
      (⟨info, module, HashCombine params.hash perm_idx⟩, binding1,
       { cst1 with programs := aupdate cst1.programs params.hash program1 })

/-- Accumulator of the stage loop: the shared binding allocator, the
stage-hash / info / module arrays of the key under construction, and the
program cache state. -/
structure LoopState where
  binding : Nat
  hashes : List Nat
  infos : List (Option ShaderInfo)
  mods : List Nat
  cst : CState
deriving DecidableEq

/-- One iteration of the stage loop of `RefreshGraphicsKey` for stage slot
`i`.  `none` means the whole refresh aborts (`return false`): on a
denylisted hash, on a stage other than vertex/fragment, or on the
tessellation probe (slot 3 enabled with a non-null program).  A disabled
slot, a null program address, or an invalid binary info zeroes the slot's
contribution and continues. -/
def stageStep (env : Env) (regs : Regs) (mrts : List SwapMode) (i : Nat)
    (ls : LoopState) : Option LoopState :=
  if ¬regs.stage_enable.testBit i then
    some { ls with hashes := ls.hashes.set i 0, infos := ls.infos.set i none }
  else
    let pgm := regs.programs.getD i SPRzero
    if pgm.address = 0 then
      some { ls with hashes := ls.hashes.set i 0, infos := ls.infos.set i none }
    else if ¬pgm.bininfo_valid then
      some { ls with hashes := ls.hashes.set i 0, infos := ls.infos.set i none }
    else if ShouldSkipShader env.denylist pgm.shader_hash then
      none
    else
      let stage := StageFromIndex i
      if stage ≠ .vertex ∧ stage ≠ .fragment then none
      else if regs.stage_enable.testBit 3 ∧ (regs.programs.getD 3 SPRzero).address ≠ 0 then
        none
      else
        let r := GetProgram env regs mrts stage ⟨pgm.shader_hash⟩ ls.binding ls.cst
        some ⟨r.2.1, ls.hashes.set i r.1.hash, ls.infos.set i (some r.1.info),
              ls.mods.set i r.1.module, r.2.2⟩

/-- The stage loop itself; `false` propagates an abort, keeping the loop
state reached so far (the C++ `return false` leaves the member arrays and
the program cache as mutated up to that point). -/
def stageLoop (env : Env) (regs : Regs) (mrts : List SwapMode) :
    List Nat → LoopState → Bool × LoopState
  | [], ls => (true, ls)
  | i :: rest, ls =>
    match stageStep env regs mrts i ls with
    | none => (false, ls)
    | some ls1 => stageLoop env regs mrts rest ls1

/-- The result of `RefreshGraphicsKey`: the success flag, the graphics key
(partially built when the refresh aborted), the per-stage info/module
arrays, and the updated program cache state. -/
structure GRefresh where
  ok : Bool
  key : GraphicsPipelineKey
  infos : List (Option ShaderInfo)
  mods : List Nat
  cstate : CState
deriving DecidableEq

/-- `PipelineCache::RefreshGraphicsKey`: zeroed key, fixed state and first
compaction pass, the stage loop, then the fragment mrt mask and the second
compaction pass. -/
def RefreshGraphicsKey (env : Env) (cst : CState) (regs : Regs) : GRefresh :=
  let key0 := buildBaseKey env regs
  let init : LoopState :=
    ⟨0, List.replicate 5 0, List.replicate 5 none, List.replicate 5 0, cst⟩
  let r := stageLoop env regs key0.mrt_swizzles (List.range MaxShaderStages) init
  match r with
  | (false, ls) =>
    ⟨false, { key0 with stage_hashes := ls.hashes }, ls.infos, ls.mods, ls.cst⟩
  | (true, ls) =>
    let mrt_mask :=
      match ls.infos.getD 0 none with
      | some i => i.mrt_mask
      | none => 0
    let key1 := { key0 with stage_hashes := ls.hashes, mrt_mask := mrt_mask }
    let key2 := secondPassAux regs mrt_mask (List.range NumColorBuffers) 0 key1
    ⟨true, key2, ls.infos, ls.mods, ls.cst⟩

/-- `PipelineCache::RefreshComputeKey`: denylist check on the compute
program's hash, then the program cache lookup; the compute key is the
returned dedup hash.  (The compute path performs no address or binary-info
validity check.) -/
def RefreshComputeKey (env : Env) (cst : CState) (regs : Regs) :
    Bool × Nat × Option ShaderInfo × Nat × CState :=
  if ShouldSkipShader env.denylist regs.cs_program.shader_hash then
    (false, 0, none, 0, cst)
  else
    let r := GetProgram env regs (List.replicate 8 .standard) .compute
      ⟨regs.cs_program.shader_hash⟩ 0 cst
    (true, r.1.hash, some r.1.info, r.1.module, r.2.2)

/-- The pipeline cache state: the program cache, both pipeline maps, the
pipeline identifier counter, and construction logs recording the key of
every pipeline object ever created. -/
structure PCState where
  cstate : CState
  graphics_pipelines : List (GraphicsPipelineKey × Nat)
  compute_pipelines : List (Nat × Nat)
  next_pipeline : Nat
  created_g : List GraphicsPipelineKey
  created_c : List Nat
deriving DecidableEq

/-- The empty pipeline cache state at renderer construction. -/
def PCState.initial : PCState := ⟨⟨[], 0, []⟩, [], [], 0, [], []⟩

/-- `PipelineCache::GetGraphicsPipeline`: the topology / no-op-pass skips,
the key refresh, then `try_emplace` into the pipeline map with creation on
first encounter. -/
def GetGraphicsPipeline (env : Env) (st : PCState) (regs : Regs) :
    Option Nat × PCState :=
  if regs.primitive_type = .patch then (none, st)
  else if regs.color_control_mode = .eliminateFastClear then (none, st)
  else if regs.color_control_mode = .fmaskDecompress then (none, st)
  else if regs.primitive_type = .noneType then (none, st)
  else
    let r := RefreshGraphicsKey env st.cstate regs
    if r.ok then
      match alook st.graphics_pipelines r.key with
      | some p => (some p, { st with cstate := r.cstate })
      | none =>
        (some st.next_pipeline,
         { st with
           cstate := r.cstate
           graphics_pipelines := (r.key, st.next_pipeline) :: st.graphics_pipelines
           next_pipeline := st.next_pipeline + 1
           created_g := st.created_g ++ [r.key] })
    else (none, { st with cstate := r.cstate })

/-- `PipelineCache::GetComputePipeline`: key refresh then `try_emplace` into
the compute pipeline map. -/
def GetComputePipeline (env : Env) (st : PCState) (regs : Regs) :
    Option Nat × PCState :=
  let r := RefreshComputeKey env st.cstate regs
  if r.1 then
    let key := r.2.1
    let cst1 := r.2.2.2.2
    match alook st.compute_pipelines key with
    | some p => (some p, { st with cstate := cst1 })
    | none =>
      (some st.next_pipeline,
       { st with
         cstate := cst1
         compute_pipelines := (key, st.next_pipeline) :: st.compute_pipelines
         next_pipeline := st.next_pipeline + 1
         created_c := st.created_c ++ [key] })
  else (none, st)

/-- One draw or dispatch submitted to the cache. -/
inductive DrawOp where
  | gfx (regs : Regs)
  | cmp (regs : Regs)

/-- State transition of one draw/dispatch. -/
def stepOp (env : Env) (st : PCState) : DrawOp → PCState
  | .gfx regs => (GetGraphicsPipeline env st regs).2
  | .cmp regs => (GetComputePipeline env st regs).2

/-- Run a sequence of draws/dispatches. -/
def runOps (env : Env) (st : PCState) : List DrawOp → PCState
  | [] => st
  | op :: rest => runOps env (stepOp env st op) rest

/-- `RefreshGraphicsKey` on a full register snapshot: key construction reads
only the consumed registers `RegSnapshot.regs`. -/
def RefreshGraphicsKeyS (env : Env) (cst : CState) (s : RegSnapshot) : GRefresh :=
  RefreshGraphicsKey env cst s.regs

/-- The second compaction pass disables an unreferenced target: read as the
spec claims it — the color-format array should hold exactly the data of the
slots passing all gates (enabled, unmasked, mrt-referenced), left-packed in
slot order, with trailing entries at the undefined sentinel. -/
def claimedCompactedFormats (env : Env) (regs : Regs) (mrt_mask : Nat) : List Nat :=
  let survivors := (List.range NumColorBuffers).filter fun cb =>
    let col_buf := regs.color_buffers.getD cb CBzero
    ¬regs.color_control_mode = .disableMode ∧ col_buf.valid = true ∧
      getMask4 regs.color_target_mask cb ≠ 0 ∧ mrt_mask.testBit cb = true
  let data := survivors.map fun cb =>
    let col_buf := regs.color_buffers.getD cb CBzero
    env.adjustColorBufferFormat (env.surfaceFormat col_buf.dfmt col_buf.nfmt) col_buf.comp_swap
  data ++ List.replicate (NumColorBuffers - data.length) 0

/-- Replace stage slot `i`'s program registers by the null program (address
zero), the configuration of an absent stage program. -/
def nullStage (regs : Regs) (i : Nat) : Regs :=
  { regs with programs := regs.programs.set i SPRzero }

/-- Cache extension: every cached program survives with the same info and
its permutation list extended on the right. -/
def CExt (a b : CState) : Prop :=
  ∀ h p, alook a.programs h = some p →
    ∃ q, alook b.programs h = some q ∧ q.info = p.info ∧ ∃ t, q.modules = p.modules ++ t

/-- Translator consistency, part 1: `EmitSPIRV` advances the binding cursor
by exactly the translated program's binding count. -/
def EmitConsistent (env : Env) : Prop :=
  ∀ rt i, env.emitAdvance rt i = i.num_bindings

/-- Translator consistency, part 2: the binding count of a translation
depends only on the bytecode (its content hash), not on stage or runtime
info. -/
def BindingsByHash (env : Env) : Prop :=
  ∀ stage params rt, (env.translatedInfo stage params rt).num_bindings = env.bindingCount params.hash

/-- Well-formed program cache: every cached program's binding count agrees
with its bytecode's binding count. -/
def WFC (env : Env) (cst : CState) : Prop :=
  ∀ h p, alook cst.programs h = some p → p.info.num_bindings = env.bindingCount h

/-- Empty program cache state. -/
def CState0 : CState := ⟨[], 0, []⟩

/-- The draw-skip conditions `GetGraphicsPipeline` checks before any key
refresh: patch or none topology, fast-clear-eliminate or FMask-decompress
pass. -/
def EarlySkip (regs : Regs) : Prop :=
  regs.primitive_type = .patch ∨ regs.color_control_mode = .eliminateFastClear
  ∨ regs.color_control_mode = .fmaskDecompress ∨ regs.primitive_type = .noneType

/-- The pipeline-map bookkeeping invariant: every pipeline key ever created
was created exactly once, and the maps hold exactly the created keys. -/
def PCInv (st : PCState) : Prop :=
  st.created_g.Nodup ∧ st.created_c.Nodup
  ∧ (∀ k, (alook st.graphics_pipelines k).isSome ↔ k ∈ st.created_g)
  ∧ (∀ k, (alook st.compute_pipelines k).isSome ↔ k ∈ st.created_c)

/-- A concrete test environment: injective format tables, translator with
binding count 0 and fragment mrt mask `0b110`, empty denylist. -/
def envT : Env where
  depthClipControlSupported := true
  depthFormat := fun _ _ => 1
  surfaceFormat := fun d n => d * 100 + n + 1
  adjustColorBufferFormat := fun b _ => b
  translatedInfo := fun stage p _ => ⟨stage, p.hash, 0, 6⟩
  emitAdvance := fun _ i => i.num_bindings
  bindingCount := fun _ => 0
  denylist := []

/-- `envT` with content hash 42 denylisted. -/
def envD : Env := { envT with denylist := [42] }

/-- A benign register snapshot: triangle topology, normal color mode, no
stage enabled, nothing bound. -/
def regs0 : Regs where
  primitive_type := .triangle
  color_control_mode := .normalMode
  depth_control := ⟨false, false, false, 0⟩
  depth_clear_enable := false
  needs_bias := false
  z_format := 0
  stencil_format_reg := 0
  stencil_control := 0
  enable_primitive_restart := 0
  primitive_restart_index := 0
  polygon_mode := 0
  cull_mode := 0
  clip_space := .minusWToW
  front_face := 0
  num_samples := 1
  color_buffers := List.replicate 8 CBzero
  blend_control := List.replicate 8 BCzero
  color_target_mask := 0
  color_shader_mask := 0
  stage_enable := 0
  programs := List.replicate 5 SPRzero
  vs_output_control := ⟨false, false, false, false, false, false, 0, 0⟩
  ps_inputs := []
  num_interp := 0
  cs_program := ⟨0, 0, 1, 1, 1, 0, 0, 7⟩

/-- Sparse color-target snapshot: slot 0 unbound, slots 1 and 2 bound and
enabled, fragment stage (slot 0) enabled with a valid program whose mrt
mask under `envT` references hardware slots 1 and 2. -/
def regsC1 : Regs :=
  { regs0 with
    stage_enable := 1
    programs := (List.replicate 5 SPRzero).set 0 ⟨1, true, 11, 0, 0, 0⟩
    color_buffers := [CBzero, ⟨true, 1, 1, .standard, false⟩, ⟨true, 2, 1, .standard, false⟩,
                      CBzero, CBzero, CBzero, CBzero, CBzero]
    color_target_mask := 0xFF0
    color_shader_mask := 0xFF0 }

/-- Vertex stage (slot 1) enabled with a non-null program whose binary info
is invalid. -/
def regsC2 : Regs :=
  { regs0 with
    stage_enable := 2
    programs := (List.replicate 5 SPRzero).set 1 ⟨5, false, 22, 0, 0, 0⟩ }

/-- Tessellation slot 3 enabled with a non-null program whose binary info is
invalid, no other stage enabled. -/
def regsC5 : Regs :=
  { regs0 with
    stage_enable := 8
    programs := (List.replicate 5 SPRzero).set 3 ⟨9, false, 33, 0, 0, 0⟩ }

/-- `regsC5` with the slot-3 program's binary info valid. -/
def regsC5v : Regs :=
  { regs0 with
    stage_enable := 8
    programs := (List.replicate 5 SPRzero).set 3 ⟨9, true, 33, 0, 0, 0⟩ }

/-- `regs0` with patch primitive topology. -/
def regsPatch : Regs := { regs0 with primitive_type := .patch }

/-- Valid fragment (slot 0) and vertex (slot 1) programs over the sparse
color targets of `regsC1`. -/
def regsVF : Regs :=
  { regsC1 with
    stage_enable := 3
    programs := ((List.replicate 5 SPRzero).set 0 ⟨1, true, 11, 0, 0, 0⟩).set 1
      ⟨2, true, 12, 3, 1, 2⟩ }

/-- Vertex stage (slot 1) enabled with a valid program of hash 42 (the hash
`envD` denylists), and a compute program of the same hash. -/
def regsDeny : Regs :=
  { regs0 with
    stage_enable := 2
    programs := (List.replicate 5 SPRzero).set 1 ⟨5, true, 42, 0, 0, 0⟩
    cs_program := ⟨0, 0, 1, 1, 1, 0, 0, 42⟩ }

/-- Dispatch-only state: benign graphics registers, compute program of
hash 42 (the hash `envD` denylists). -/
def regsDenyC : Regs := { regs0 with cs_program := ⟨0, 0, 1, 1, 1, 0, 0, 42⟩ }

lemma list_getD_set_self {α : Type} (l : List α) (i : Nat) (a : α) :
    (l.set i a).getD i a = a := by
  induction l generalizing i with
  | nil => simp [List.getD]
  | cons x xs ih =>
    cases i with
    | zero => simp [List.getD]
    | succ n => simpa [List.getD] using ih n

lemma list_getD_set_ne {α : Type} (l : List α) {i j : Nat} (h : i ≠ j) (a d : α) :
    (l.set i a).getD j d = l.getD j d := by
  induction l generalizing i j with
  | nil => simp
  | cons x xs ih =>
    cases i with
    | zero =>
      cases j with
      | zero => exact absurd rfl h
      | succ m => simp [List.getD]
    | succ n =>
      cases j with
      | zero => simp [List.getD]
      | succ m => simpa [List.getD] using ih (fun hc => h (by simp [hc])) 

lemma secondPass_preserves (regs : Regs) (m : Nat) :
    ∀ (l : List Nat) (r : Nat) (key : GraphicsPipelineKey),
      (secondPassAux regs m l r key).depth_stencil = key.depth_stencil ∧
      (secondPassAux regs m l r key).depth_format = key.depth_format ∧
      (secondPassAux regs m l r key).stencil_format = key.stencil_format := by
  intro l
  induction l with
  | nil => intro r key; simp [secondPassAux]
  | cons cb rest ih =>
    intro r key
    simp only [secondPassAux]
    split
    · simpa using ih r _
    · simpa using ih (r + 1) _

lemma buildBaseKey_depth (env : Env) (regs : Regs) :
    (buildBaseKey env regs).depth_stencil.depth_write_enable
      = (regs.depth_control.depth_write_enable && !regs.depth_clear_enable)
    ∧ (buildBaseKey env regs).depth_format
      = (if regs.z_format ≠ 0 then env.depthFormat regs.z_format regs.stencil_format_reg else 0)
    ∧ (buildBaseKey env regs).stencil_format
      = (if regs.stencil_format_reg ≠ 0 then (buildBaseKey env regs).depth_format else 0)
    ∧ (buildBaseKey env regs).depth_stencil.depth_enable
      = (regs.depth_control.depth_enable && ((buildBaseKey env regs).depth_format != 0))
    ∧ (buildBaseKey env regs).depth_stencil.stencil_enable
      = (regs.depth_control.stencil_enable && ((buildBaseKey env regs).stencil_format != 0)) := by
  by_cases hz : regs.z_format = 0 <;> by_cases hs : regs.stencil_format_reg = 0 <;>
    cases hde : regs.depth_control.depth_enable <;>
    cases hse : regs.depth_control.stencil_enable <;>
    simp [buildBaseKey, hz, hs, hde, hse]

lemma refresh_key_depth_eq (env : Env) (cst : CState) (regs : Regs) :
    (RefreshGraphicsKey env cst regs).key.depth_stencil = (buildBaseKey env regs).depth_stencil
    ∧ (RefreshGraphicsKey env cst regs).key.depth_format = (buildBaseKey env regs).depth_format
    ∧ (RefreshGraphicsKey env cst regs).key.stencil_format
      = (buildBaseKey env regs).stencil_format := by
  simp only [RefreshGraphicsKey]
  rcases hr : stageLoop env regs (buildBaseKey env regs).mrt_swizzles
      (List.range MaxShaderStages) ⟨0, List.replicate 5 0, List.replicate 5 none,
        List.replicate 5 0, cst⟩ with ⟨b, ls⟩
  cases b
  · simp
  · simpa using secondPass_preserves regs _ (List.range NumColorBuffers) 0 _

/-- C8: in the graphics key built by `RefreshGraphicsKey`, the depth
write-enable bit is the raw register bit masked by the absence of a pending
depth clear; the depth and stencil formats fall back to the undefined
sentinel unless the corresponding register format is valid; and the depth-
and stencil-enable bits hold only when the corresponding key format is not
undefined. -/
theorem c8_depth_stencil_rules (env : Env) (cst : CState) (regs : Regs) :
    (RefreshGraphicsKey env cst regs).key.depth_stencil.depth_write_enable
      = (regs.depth_control.depth_write_enable && !regs.depth_clear_enable)
    ∧ (RefreshGraphicsKey env cst regs).key.depth_format
      = (if regs.z_format ≠ 0 then env.depthFormat regs.z_format regs.stencil_format_reg else 0)
    ∧ (RefreshGraphicsKey env cst regs).key.stencil_format
      = (if regs.stencil_format_reg ≠ 0 then (RefreshGraphicsKey env cst regs).key.depth_format
         else 0)
    ∧ (RefreshGraphicsKey env cst regs).key.depth_stencil.depth_enable
      = (regs.depth_control.depth_enable
          && ((RefreshGraphicsKey env cst regs).key.depth_format != 0))
    ∧ (RefreshGraphicsKey env cst regs).key.depth_stencil.stencil_enable
      = (regs.depth_control.stencil_enable
          && ((RefreshGraphicsKey env cst regs).key.stencil_format != 0)) := by
  obtain ⟨h1, h2, h3⟩ := refresh_key_depth_eq env cst regs
  obtain ⟨g1, g2, g3, g4, g5⟩ := buildBaseKey_depth env regs
  rw [h1, h2, h3]
  exact ⟨g1, g2, g3, g4, g5⟩

/-- C1: evaluation of the refresh at the sparse-binding failing input.  The
refresh succeeds with fragment mrt mask `0b110`, yet the color-format array
is `[undefined, fmt(CB2), undefined, ...]` while the write masks of the two
surviving targets sit left-packed at compacted indices 0 and 1: the second
pass cleared compacted entry 0 (holding CB1's format) because raw slot 0
failed its gates, so the arrays are neither left-packed nor mutually
aligned, contradicting the claimed layout `[fmt(CB1), fmt(CB2), ...]`. -/
theorem c1_compaction_misaligned :
    (RefreshGraphicsKey envT CState0 regsC1).ok = true
    ∧ (RefreshGraphicsKey envT CState0 regsC1).key.mrt_mask = 6
    ∧ (RefreshGraphicsKey envT CState0 regsC1).key.color_formats = [0, 202, 0, 0, 0, 0, 0, 0]
    ∧ (RefreshGraphicsKey envT CState0 regsC1).key.write_masks = [15, 15, 0, 0, 0, 0, 0, 0]
    ∧ claimedCompactedFormats envT regsC1 6 = [102, 202, 0, 0, 0, 0, 0, 0]
    ∧ (RefreshGraphicsKey envT CState0 regsC1).key.color_formats
        ≠ claimedCompactedFormats envT regsC1 6 := by
  decide

/-- C9: register snapshots that agree on every field consumed by key
construction (with the same cache state and capability environment) refresh
to bit-identical graphics keys; the model builds the key from
`GraphicsPipelineKey.zeroed`, so no state of a previous refresh can
survive into it. -/
theorem c9_refresh_deterministic (env : Env) (cst : CState) (s1 s2 : RegSnapshot)
    (h : s1.regs = s2.regs) :
    RefreshGraphicsKeyS env cst s1 = RefreshGraphicsKeyS env cst s2 := by
  simp [RefreshGraphicsKeyS, h]

/-- Witness for C9: two snapshots differing only in unconsumed register
state refresh identically. -/
theorem c9_witness :
    (⟨regs0, 0⟩ : RegSnapshot).regs = (⟨regs0, 99⟩ : RegSnapshot).regs
    ∧ RefreshGraphicsKeyS envT CState0 ⟨regs0, 0⟩ = RefreshGraphicsKeyS envT CState0 ⟨regs0, 99⟩ :=
  ⟨rfl, c9_refresh_deterministic envT CState0 ⟨regs0, 0⟩ ⟨regs0, 99⟩ rfl⟩

/-- C10: with the compiled-in empty denylist, `ShouldSkipShader` rejects no
hash, `RefreshComputeKey` succeeds on every register state (it checks
neither program address nor binary info), and `GetComputePipeline` never
returns null. -/
theorem c10_compute_never_null (env : Env) (st : PCState) (regs : Regs) (h : Nat)
    (hdeny : env.denylist = skip_hashes) :
    ShouldSkipShader skip_hashes h = false
    ∧ (RefreshComputeKey env st.cstate regs).1 = true
    ∧ (GetComputePipeline env st regs).1.isSome = true := by
  have hskip : ∀ x : Nat, ShouldSkipShader env.denylist x = false := by
    intro x; simp [hdeny, ShouldSkipShader, skip_hashes]
  refine ⟨by simp [ShouldSkipShader, skip_hashes], ?_, ?_⟩
  · simp [RefreshComputeKey, hskip]
  · simp only [GetComputePipeline, RefreshComputeKey, hskip, if_false, Bool.false_eq_true,
      if_true, reduceIte]
    split <;> simp

/-- Witness for C10 at a concrete environment and register state. -/
theorem c10_witness :
    ShouldSkipShader skip_hashes 123 = false
    ∧ (RefreshComputeKey envT PCState.initial.cstate regs0).1 = true
    ∧ (GetComputePipeline envT PCState.initial regs0).1.isSome = true :=
  c10_compute_never_null envT PCState.initial regs0 123 rfl

lemma StageFromIndex_vertex {j : Nat} : StageFromIndex j = .vertex ↔ j = 1 := by
  unfold StageFromIndex
  split <;> simp_all

lemma StageFromIndex_fragment {j : Nat} : StageFromIndex j = .fragment ↔ j = 0 := by
  unfold StageFromIndex
  split <;> simp_all


lemma BuildRuntimeInfo_null (env : Env) (regs : Regs) (mrts : List SwapMode) (stage : Stage)
    (i : Nat) (hv : stage = .vertex → i ≠ 1) (hf : stage = .fragment → i ≠ 0) :
    BuildRuntimeInfo env (nullStage regs i) mrts stage = BuildRuntimeInfo env regs mrts stage := by
  cases stage with
  | vertex => simp [BuildRuntimeInfo, nullStage, List.getElem?_set_ne (hv rfl)]
  | fragment => simp [BuildRuntimeInfo, nullStage, List.getElem?_set_ne (hf rfl)]
  | geometry => rfl
  | es => rfl
  | hs => rfl
  | localStage => rfl
  | compute => simp [BuildRuntimeInfo, nullStage]

lemma GetProgram_null (env : Env) (regs : Regs) (mrts : List SwapMode) (stage : Stage)
    (params : ShaderParams) (b : Nat) (cst : CState) (i : Nat)
    (hv : stage = .vertex → i ≠ 1) (hf : stage = .fragment → i ≠ 0) :
    GetProgram env (nullStage regs i) mrts stage params b cst
      = GetProgram env regs mrts stage params b cst := by
  simp only [GetProgram, BuildRuntimeInfo_null env regs mrts stage i hv hf]

lemma stageStep_null_ne (env : Env) (regs : Regs) (mrts : List SwapMode) {i j : Nat}
    (hji : j ≠ i) (hi3 : i ≠ 3) (ls : LoopState) :
    stageStep env (nullStage regs i) mrts j ls = stageStep env regs mrts j ls := by
  have h1 : (nullStage regs i).programs.getD j SPRzero = regs.programs.getD j SPRzero := by
    simp [nullStage, List.getD_eq_getElem?_getD,
      List.getElem?_set_ne (fun hc => hji hc.symm)]
  have h3 : (nullStage regs i).programs.getD 3 SPRzero = regs.programs.getD 3 SPRzero := by
    simp [nullStage, List.getD_eq_getElem?_getD,
      List.getElem?_set_ne (fun hc : i = 3 => hi3 hc)]
  have h2 : (nullStage regs i).stage_enable = regs.stage_enable := rfl
  have hgp := GetProgram_null env regs mrts (StageFromIndex j)
    ⟨(regs.programs.getD j SPRzero).shader_hash⟩ ls.binding ls.cst i
    (fun hst => by rw [StageFromIndex_vertex] at hst; omega)
    (fun hst => by rw [StageFromIndex_fragment] at hst; omega)
  simp only [stageStep, h1, h2, h3, hgp]

lemma stageStep_zeroes (env : Env) (regs : Regs) (mrts : List SwapMode) {i : Nat}
    (hen : regs.stage_enable.testBit i = true)
    (haddr : (regs.programs.getD i SPRzero).address ≠ 0)
    (hbin : (regs.programs.getD i SPRzero).bininfo_valid = false) (ls : LoopState) :
    stageStep env regs mrts i ls
      = some { ls with hashes := ls.hashes.set i 0, infos := ls.infos.set i none } := by
  simp only [stageStep, hen, not_true, if_false, Bool.not_eq_true, reduceIte, hbin,
    if_neg haddr]

lemma stageStep_null_self (env : Env) (regs : Regs) (mrts : List SwapMode) {i : Nat}
    (hen : regs.stage_enable.testBit i = true) (ls : LoopState) :
    stageStep env (nullStage regs i) mrts i ls
      = some { ls with hashes := ls.hashes.set i 0, infos := ls.infos.set i none } := by
  have h0 : (nullStage regs i).programs.getD i SPRzero = SPRzero := by
    simpa [nullStage] using list_getD_set_self regs.programs i SPRzero
  have h2 : (nullStage regs i).stage_enable = regs.stage_enable := rfl
  simp only [stageStep, h0, h2, hen]
  simp [SPRzero]

lemma stageLoop_congr (env : Env) (regsA regsB : Regs) (mrts : List SwapMode) (l : List Nat)
    (h : ∀ j ∈ l, ∀ ls, stageStep env regsA mrts j ls = stageStep env regsB mrts j ls) :
    ∀ ls, stageLoop env regsA mrts l ls = stageLoop env regsB mrts l ls := by
  induction l with
  | nil => intro ls; rfl
  | cons j rest ih =>
    intro ls
    simp only [stageLoop, h j (by simp)]
    cases stageStep env regsB mrts j ls with
    | none => rfl
    | some ls1 => exact ih (fun k hk ls2 => h k (by simp [hk]) ls2) ls1

lemma secondPassAux_congr (regsA regsB : Regs) (m : Nat)
    (hmode : regsA.color_control_mode = regsB.color_control_mode)
    (hcb : regsA.color_buffers = regsB.color_buffers)
    (htm : regsA.color_target_mask = regsB.color_target_mask)
    (hsm : regsA.color_shader_mask = regsB.color_shader_mask)
    (hbc : regsA.blend_control = regsB.blend_control) :
    ∀ (l : List Nat) (r : Nat) (key : GraphicsPipelineKey),
      secondPassAux regsA m l r key = secondPassAux regsB m l r key := by
  intro l
  induction l with
  | nil => intro r key; rfl
  | cons cb rest ih =>
    intro r key
    simp only [secondPassAux, hmode, hcb, htm, hsm, hbc]
    split
    · exact ih r _
    · exact ih (r + 1) _

/-- C2 (amended): an enabled stage slot (other than the tessellation probe
slot 3) holding a non-null program with invalid binary info does not abort
`RefreshGraphicsKey`; the refresh behaves exactly as if that slot held no
program at all — the slot's hash and info are zeroed and the refresh
continues. -/
theorem c2_invalid_bininfo_continues (env : Env) (cst : CState) (regs : Regs) (i : Nat)
    (hi3 : i ≠ 3)
    (hen : regs.stage_enable.testBit i = true)
    (haddr : (regs.programs.getD i SPRzero).address ≠ 0)
    (hbin : (regs.programs.getD i SPRzero).bininfo_valid = false) :
    RefreshGraphicsKey env cst regs = RefreshGraphicsKey env cst (nullStage regs i) := by
  have hbase : buildBaseKey env (nullStage regs i) = buildBaseKey env regs := rfl
  have hloop := stageLoop_congr env (nullStage regs i) regs
    (buildBaseKey env regs).mrt_swizzles (List.range MaxShaderStages)
    (by
      intro j _ ls
      by_cases hji : j = i
      · subst hji
        rw [stageStep_null_self env regs _ hen, stageStep_zeroes env regs _ hen haddr hbin]
      · exact stageStep_null_ne env regs _ hji hi3 ls)
  have hsp : ∀ (m : Nat) (l : List Nat) (r : Nat) (key : GraphicsPipelineKey),
      secondPassAux (nullStage regs i) m l r key = secondPassAux regs m l r key :=
    fun m => secondPassAux_congr (nullStage regs i) regs m rfl rfl rfl rfl rfl
  simp only [RefreshGraphicsKey, hbase, hloop, hsp]

/-- C2 (counterexample): with the vertex slot enabled, holding a non-null
program whose binary info is invalid, `RefreshGraphicsKey` succeeds — it
does not abort and return failure as claimed — and the stage-hash array
stays zeroed. -/
theorem c2_cex_refresh_succeeds :
    regsC2.stage_enable.testBit 1 = true
    ∧ (regsC2.programs.getD 1 SPRzero).address ≠ 0
    ∧ (regsC2.programs.getD 1 SPRzero).bininfo_valid = false
    ∧ (RefreshGraphicsKey envT CState0 regsC2).ok = true
    ∧ (RefreshGraphicsKey envT CState0 regsC2).key.stage_hashes = List.replicate 5 0 := by
  decide

/-- Witness for C2's amended statement at the concrete invalid-binary-info
snapshot. -/
theorem c2_witness :
    RefreshGraphicsKey envT CState0 regsC2 = RefreshGraphicsKey envT CState0 (nullStage regsC2 1) :=
  c2_invalid_bininfo_continues envT CState0 regsC2 1 (by decide) (by decide) (by decide)
    (by decide)

lemma stageLoop_abort (env : Env) (regs : Regs) (mrts : List SwapMode) {l : List Nat} {i : Nat}
    (hi : i ∈ l) (habort : ∀ ls, stageStep env regs mrts i ls = none) :
    ∀ ls, (stageLoop env regs mrts l ls).1 = false := by
  induction l with
  | nil => cases hi
  | cons j rest ih =>
    intro ls
    simp only [stageLoop]
    rcases List.mem_cons.mp hi with hji | hmem
    · rw [← hji, habort ls]
    · cases hstep : stageStep env regs mrts j ls with
      | none => rfl
      | some ls1 => exact ih hmem ls1

lemma stageStep_abort_of_tess (env : Env) (regs : Regs) (mrts : List SwapMode) {i : Nat}
    (hen : regs.stage_enable.testBit i = true)
    (haddr : (regs.programs.getD i SPRzero).address ≠ 0)
    (hbin : (regs.programs.getD i SPRzero).bininfo_valid = true)
    (ht3 : regs.stage_enable.testBit 3 = true)
    (ha3 : (regs.programs.getD 3 SPRzero).address ≠ 0) :
    ∀ ls, stageStep env regs mrts i ls = none := by
  intro ls
  simp only [stageStep, hen, not_true, reduceIte, if_neg haddr, hbin]
  split_ifs with h1 h2 h3 <;> first
    | rfl
    | exact absurd ⟨ht3, ha3⟩ h3

lemma refresh_ok_eq_loop (env : Env) (cst : CState) (regs : Regs) :
    (RefreshGraphicsKey env cst regs).ok
      = (stageLoop env regs (buildBaseKey env regs).mrt_swizzles (List.range MaxShaderStages)
          ⟨0, List.replicate 5 0, List.replicate 5 none, List.replicate 5 0, cst⟩).1 := by
  simp only [RefreshGraphicsKey]
  rcases h : stageLoop env regs (buildBaseKey env regs).mrt_swizzles (List.range MaxShaderStages)
      ⟨0, List.replicate 5 0, List.replicate 5 none, List.replicate 5 0, cst⟩ with ⟨b, ls⟩
  cases b <;> simp

/-- C5 (amended): `GetGraphicsPipeline` returns null whenever the topology
is patch or none, or the color-control operation mode is a fast-clear
eliminate or FMask-decompress pass; and it returns null when the
tessellation slot (3) is enabled with a non-null program, provided some
enabled stage slot holds a non-null program with *valid* binary info (in
particular whenever the tessellation program's own binary info is valid).
When every enabled slot's program is absent or has invalid binary info, the
tessellation condition sits on an unreached path. -/
theorem c5_skip_rules (env : Env) (st : PCState) (regs : Regs) :
    ((regs.primitive_type = .patch ∨ regs.primitive_type = .noneType
        ∨ regs.color_control_mode = .eliminateFastClear
        ∨ regs.color_control_mode = .fmaskDecompress) →
      (GetGraphicsPipeline env st regs).1 = none)
    ∧ ((regs.stage_enable.testBit 3 = true ∧ (regs.programs.getD 3 SPRzero).address ≠ 0
        ∧ ∃ i, i < MaxShaderStages ∧ regs.stage_enable.testBit i = true
            ∧ (regs.programs.getD i SPRzero).address ≠ 0
            ∧ (regs.programs.getD i SPRzero).bininfo_valid = true) →
      (GetGraphicsPipeline env st regs).1 = none) := by
  constructor
  · intro hcase
    by_cases hp : regs.primitive_type = .patch
    · simp [GetGraphicsPipeline, hp]
    by_cases hm1 : regs.color_control_mode = .eliminateFastClear
    · simp [GetGraphicsPipeline, hp, hm1]
    by_cases hm2 : regs.color_control_mode = .fmaskDecompress
    · simp [GetGraphicsPipeline, hp, hm1, hm2]
    by_cases hn : regs.primitive_type = .noneType
    · simp [GetGraphicsPipeline, hp, hm1, hm2, hn]
    · rcases hcase with h | h | h | h <;> exact absurd h (by assumption)
  · rintro ⟨ht3, ha3, i, hi5, hen, haddr, hbin⟩
    by_cases hp : regs.primitive_type = .patch
    · simp [GetGraphicsPipeline, hp]
    by_cases hm1 : regs.color_control_mode = .eliminateFastClear
    · simp [GetGraphicsPipeline, hp, hm1]
    by_cases hm2 : regs.color_control_mode = .fmaskDecompress
    · simp [GetGraphicsPipeline, hp, hm1, hm2]
    by_cases hn : regs.primitive_type = .noneType
    · simp [GetGraphicsPipeline, hp, hm1, hm2, hn]
    have hok : (RefreshGraphicsKey env st.cstate regs).ok = false := by
      rw [refresh_ok_eq_loop]
      exact stageLoop_abort env regs _ (List.mem_range.mpr hi5)
        (stageStep_abort_of_tess env regs _ hen haddr hbin ht3 ha3) _
    simp [GetGraphicsPipeline, hp, hm1, hm2, hn, hok]

/-- C5 (counterexample): the tessellation slot enabled with a non-null
program whose binary info is invalid, with no other slot enabled, yields a
non-null pipeline — refuting "null regardless of all other register
fields". -/
theorem c5_cex_tess_not_skipped :
    regsC5.stage_enable.testBit 3 = true
    ∧ (regsC5.programs.getD 3 SPRzero).address ≠ 0
    ∧ (GetGraphicsPipeline envT PCState.initial regsC5).1 ≠ none := by
  decide

/-- Witness for C5's amended statement: a patch-topology draw and a
valid-binary tessellation draw both yield null. -/
theorem c5_witness :
    (GetGraphicsPipeline envT PCState.initial regsPatch).1 = none
    ∧ (GetGraphicsPipeline envT PCState.initial regsC5v).1 = none :=
  ⟨(c5_skip_rules envT PCState.initial regsPatch).1 (Or.inl (by decide)),
   (c5_skip_rules envT PCState.initial regsC5v).2
     ⟨by decide, by decide, 3, by decide, by decide, by decide, by decide⟩⟩

lemma HashCombine_zero_ne_one (h : Nat) : HashCombine h 0 ≠ HashCombine h 1 := by
  unfold HashCombine
  intro heq
  have h1 : (0 + 0x9e3779b9 + h % 2 ^ 64 * 64 + h % 2 ^ 64 / 4) % 2 ^ 64
      = (1 + 0x9e3779b9 + h % 2 ^ 64 * 64 + h % 2 ^ 64 / 4) % 2 ^ 64 := by
    have h2 := congrArg (fun z => (h % 2 ^ 64) ^^^ z) heq
    simpa [← Nat.xor_assoc, Nat.xor_self, Nat.zero_xor] using h2
  have hM : (2 : Nat) ^ 64 = 18446744073709551616 := by norm_num
  rw [hM] at h1
  omega

/-- C6: dedup-hash and permutation identity of `GetProgram`.  A brand-new
program reports `HashCombine(hash, 0)` with one permutation.  A second call
for the same content hash with an unequal specialization descriptor
compiles and appends a second permutation, reporting the pre-append list
size as its index: dedup hash `HashCombine(hash, 1)`, distinct from the
first, with a distinct module.  A second call with an equal descriptor
reuses the permutation: same dedup hash, same module, untouched cache. -/
theorem c6_permutation_identity (env : Env) (regs1 regs2 : Regs)
    (mrts1 mrts2 : List SwapMode) (stage : Stage) (h b1 b2 : Nat) (cst : CState)
    (hfresh : alook cst.programs h = none) :
    (GetProgram env regs1 mrts1 stage ⟨h⟩ b1 cst).1.hash = HashCombine h 0
    ∧ (alook (GetProgram env regs1 mrts1 stage ⟨h⟩ b1 cst).2.2.programs h).map
        (fun p => p.modules.length) = some 1
    ∧ ((⟨env.translatedInfo stage ⟨h⟩ (BuildRuntimeInfo env regs1 mrts1 stage),
          BuildRuntimeInfo env regs2 mrts2 stage, b2⟩ : StageSpecialization)
        ≠ ⟨env.translatedInfo stage ⟨h⟩ (BuildRuntimeInfo env regs1 mrts1 stage),
           BuildRuntimeInfo env regs1 mrts1 stage, b1⟩ →
        (GetProgram env regs2 mrts2 stage ⟨h⟩ b2
            (GetProgram env regs1 mrts1 stage ⟨h⟩ b1 cst).2.2).1.hash = HashCombine h 1
        ∧ (GetProgram env regs2 mrts2 stage ⟨h⟩ b2
            (GetProgram env regs1 mrts1 stage ⟨h⟩ b1 cst).2.2).1.hash
          ≠ (GetProgram env regs1 mrts1 stage ⟨h⟩ b1 cst).1.hash
        ∧ (GetProgram env regs2 mrts2 stage ⟨h⟩ b2
            (GetProgram env regs1 mrts1 stage ⟨h⟩ b1 cst).2.2).1.module
          ≠ (GetProgram env regs1 mrts1 stage ⟨h⟩ b1 cst).1.module
        ∧ (alook (GetProgram env regs2 mrts2 stage ⟨h⟩ b2
            (GetProgram env regs1 mrts1 stage ⟨h⟩ b1 cst).2.2).2.2.programs h).map
            (fun p => p.modules.length) = some 2)
    ∧ ((⟨env.translatedInfo stage ⟨h⟩ (BuildRuntimeInfo env regs1 mrts1 stage),
          BuildRuntimeInfo env regs2 mrts2 stage, b2⟩ : StageSpecialization)
        = ⟨env.translatedInfo stage ⟨h⟩ (BuildRuntimeInfo env regs1 mrts1 stage),
           BuildRuntimeInfo env regs1 mrts1 stage, b1⟩ →
        (GetProgram env regs2 mrts2 stage ⟨h⟩ b2
            (GetProgram env regs1 mrts1 stage ⟨h⟩ b1 cst).2.2).1.hash
          = (GetProgram env regs1 mrts1 stage ⟨h⟩ b1 cst).1.hash
        ∧ (GetProgram env regs2 mrts2 stage ⟨h⟩ b2
            (GetProgram env regs1 mrts1 stage ⟨h⟩ b1 cst).2.2).1.module
          = (GetProgram env regs1 mrts1 stage ⟨h⟩ b1 cst).1.module
        ∧ (GetProgram env regs2 mrts2 stage ⟨h⟩ b2
            (GetProgram env regs1 mrts1 stage ⟨h⟩ b1 cst).2.2).2.2
          = (GetProgram env regs1 mrts1 stage ⟨h⟩ b1 cst).2.2
        ∧ (alook (GetProgram env regs2 mrts2 stage ⟨h⟩ b2
            (GetProgram env regs1 mrts1 stage ⟨h⟩ b1 cst).2.2).2.2.programs h).map
            (fun p => p.modules.length) = some 1) := by
  have hone : (GetProgram env regs1 mrts1 stage ⟨h⟩ b1 cst)
      = (⟨env.translatedInfo stage ⟨h⟩ (BuildRuntimeInfo env regs1 mrts1 stage),
          cst.next_module, HashCombine h 0⟩,
         b1 + env.emitAdvance (BuildRuntimeInfo env regs1 mrts1 stage)
           (env.translatedInfo stage ⟨h⟩ (BuildRuntimeInfo env regs1 mrts1 stage)),
         ⟨(h, ⟨env.translatedInfo stage ⟨h⟩ (BuildRuntimeInfo env regs1 mrts1 stage),
            [⟨cst.next_module,
              ⟨env.translatedInfo stage ⟨h⟩ (BuildRuntimeInfo env regs1 mrts1 stage),
               BuildRuntimeInfo env regs1 mrts1 stage, b1⟩⟩]⟩) :: cst.programs,
          cst.next_module + 1, cst.translate_log ++ [h]⟩) := by
    simp only [GetProgram, compileModule]
    rw [hfresh]
  rw [hone]
  refine ⟨rfl, by simp [alook], ?_, ?_⟩
  · intro hne
    simp only [GetProgram, alook, if_pos rfl, if_true]
    simp only [findSpec]
    rw [if_neg (fun hc => hne hc.symm)]
    simp only [Option.map_none', compileModule, aupdate, if_pos rfl, if_true, alook]
    refine ⟨rfl, Ne.symm (HashCombine_zero_ne_one h), by simp, by simp [alook]⟩
  · intro heq
    simp only [GetProgram, alook, if_pos rfl, if_true]
    simp only [findSpec]
    rw [if_pos heq.symm]
    simp [alook]

/-- Witness for C6: two calls for hash 11 at binding offsets 0 and 1 yield
`HashCombine 11 0` and `HashCombine 11 1`. -/
theorem c6_witness :
    (GetProgram envT regs0 [] .vertex ⟨11⟩ 0 CState0).1.hash = HashCombine 11 0
    ∧ (GetProgram envT regs0 [] .vertex ⟨11⟩ 1
        (GetProgram envT regs0 [] .vertex ⟨11⟩ 0 CState0).2.2).1.hash = HashCombine 11 1 := by
  obtain ⟨ha, _, hc, _⟩ :=
    c6_permutation_identity envT regs0 regs0 [] [] .vertex 11 0 1 CState0 rfl
  exact ⟨ha, (hc (by decide)).1⟩

lemma stageStep_abort_of_deny (env : Env) (regs : Regs) (mrts : List SwapMode) {i : Nat}
    (hen : regs.stage_enable.testBit i = true)
    (haddr : (regs.programs.getD i SPRzero).address ≠ 0)
    (hbin : (regs.programs.getD i SPRzero).bininfo_valid = true)
    (hskip : ShouldSkipShader env.denylist (regs.programs.getD i SPRzero).shader_hash = true) :
    ∀ ls, stageStep env regs mrts i ls = none := by
  intro ls
  simp only [stageStep, hen, not_true, Bool.not_eq_true, reduceIte, if_neg haddr, hbin, hskip]

lemma GetProgram_log (env : Env) (regs : Regs) (mrts : List SwapMode) (stage : Stage)
    (params : ShaderParams) (b : Nat) (cst : CState) :
    ∃ t, (GetProgram env regs mrts stage params b cst).2.2.translate_log
        = cst.translate_log ++ t ∧ ∀ e ∈ t, e = params.hash := by
  simp only [GetProgram, compileModule]
  rcases halook : alook cst.programs params.hash with _ | prog
  · exact ⟨[params.hash], rfl, by simp⟩
  · rcases hfind : findSpec prog.modules
        ⟨prog.info, BuildRuntimeInfo env regs mrts stage, b⟩ with _ | im
    · simp only [hfind]
      exact ⟨[params.hash], rfl, by simp⟩
    · simp only [hfind]
      exact ⟨[], by simp, by simp⟩

lemma stageStep_cst (env : Env) (regs : Regs) (mrts : List SwapMode) (i : Nat)
    {ls ls1 : LoopState} (hstep : stageStep env regs mrts i ls = some ls1) :
    ls1.cst = ls.cst
    ∨ (ShouldSkipShader env.denylist (regs.programs.getD i SPRzero).shader_hash = false
       ∧ ls1.cst = (GetProgram env regs mrts (StageFromIndex i)
            ⟨(regs.programs.getD i SPRzero).shader_hash⟩ ls.binding ls.cst).2.2) := by
  simp only [stageStep] at hstep
  split at hstep
  next => cases hstep; exact Or.inl rfl
  next =>
    split at hstep
    next => cases hstep; exact Or.inl rfl
    next =>
      split at hstep
      next => cases hstep; exact Or.inl rfl
      next =>
        split at hstep
        next => exact absurd hstep (by simp)
        next hskip =>
          split at hstep
          next => exact absurd hstep (by simp)
          next =>
            split at hstep
            next => exact absurd hstep (by simp)
            next =>
              cases hstep
              exact Or.inr ⟨by simpa using hskip, rfl⟩

lemma stageStep_log (env : Env) (regs : Regs) (mrts : List SwapMode) (i : Nat)
    {ls ls1 : LoopState} (hstep : stageStep env regs mrts i ls = some ls1) :
    ∃ t, ls1.cst.translate_log = ls.cst.translate_log ++ t
      ∧ ∀ e ∈ t, ShouldSkipShader env.denylist e = false := by
  rcases stageStep_cst env regs mrts i hstep with hsame | ⟨hskip, hgp⟩
  · exact ⟨[], by simp [hsame], by simp⟩
  · obtain ⟨t, ht, he⟩ := GetProgram_log env regs mrts (StageFromIndex i)
      ⟨(regs.programs.getD i SPRzero).shader_hash⟩ ls.binding ls.cst
    refine ⟨t, by rw [hgp, ht], fun e hmem => ?_⟩
    rw [he e hmem]
    exact hskip

lemma stageLoop_log (env : Env) (regs : Regs) (mrts : List SwapMode) :
    ∀ (l : List Nat) (ls : LoopState),
      ∃ t, (stageLoop env regs mrts l ls).2.cst.translate_log = ls.cst.translate_log ++ t
        ∧ ∀ e ∈ t, ShouldSkipShader env.denylist e = false := by
  intro l
  induction l with
  | nil => intro ls; exact ⟨[], by simp [stageLoop], by simp⟩
  | cons j rest ih =>
    intro ls
    simp only [stageLoop]
    cases hstep : stageStep env regs mrts j ls with
    | none => exact ⟨[], by simp, by simp⟩
    | some ls1 =>
      obtain ⟨t1, ht1, he1⟩ := stageStep_log env regs mrts j hstep
      obtain ⟨t2, ht2, he2⟩ := ih ls1
      refine ⟨t1 ++ t2, ?_, fun e hmem => ?_⟩
      · rw [ht2, ht1, List.append_assoc]
      · rcases List.mem_append.mp hmem with hm | hm
        · exact he1 e hm
        · exact he2 e hm

lemma refresh_log (env : Env) (cst : CState) (regs : Regs) :
    ∃ t, (RefreshGraphicsKey env cst regs).cstate.translate_log = cst.translate_log ++ t
      ∧ ∀ e ∈ t, ShouldSkipShader env.denylist e = false := by
  simp only [RefreshGraphicsKey]
  rcases hsl : stageLoop env regs (buildBaseKey env regs).mrt_swizzles
      (List.range MaxShaderStages)
      ⟨0, List.replicate 5 0, List.replicate 5 none, List.replicate 5 0, cst⟩ with ⟨b, ls⟩
  have hlog := stageLoop_log env regs (buildBaseKey env regs).mrt_swizzles
    (List.range MaxShaderStages)
    ⟨0, List.replicate 5 0, List.replicate 5 none, List.replicate 5 0, cst⟩
  rw [hsl] at hlog
  cases b <;> simpa using hlog

lemma count_unchanged {log t : List Nat} {h : Nat}
    (he : ∀ e ∈ t, e ≠ h) : (log ++ t).count h = log.count h := by
  rw [List.count_append]
  have : t.count h = 0 := List.count_eq_zero.mpr (fun hmem => (he h hmem) rfl)
  omega

/-- C7: a shader whose content hash is in the denylist never reaches the
translator, and any draw or dispatch using it yields a null pipeline.  For
a draw: if some enabled stage slot holds a valid non-null program with the
denylisted hash, `GetGraphicsPipeline` returns null and the translation log
gains no entry for that hash (stages are vetoed before `GetProgram`).  For
a dispatch — from any cache state and any register snapshot — whose compute
program carries the denylisted hash, `GetComputePipeline` returns null with
the whole cache state untouched. -/
theorem c7_denylist_never_translated (env : Env) (st : PCState) (regs : Regs) (h : Nat)
    (hmem : h ∈ env.denylist)
    (i : Nat) (hi5 : i < MaxShaderStages)
    (hen : regs.stage_enable.testBit i = true)
    (haddr : (regs.programs.getD i SPRzero).address ≠ 0)
    (hbin : (regs.programs.getD i SPRzero).bininfo_valid = true)
    (hhash : (regs.programs.getD i SPRzero).shader_hash = h)
    (stc : PCState) (regsc : Regs) (hcs : regsc.cs_program.shader_hash = h) :
    (GetGraphicsPipeline env st regs).1 = none
    ∧ (GetGraphicsPipeline env st regs).2.cstate.translate_log.count h
        = st.cstate.translate_log.count h
    ∧ GetComputePipeline env stc regsc = (none, stc) := by
  have hskip_h : ShouldSkipShader env.denylist h = true :=
    List.elem_eq_true_of_mem hmem
  have hok : (RefreshGraphicsKey env st.cstate regs).ok = false := by
    rw [refresh_ok_eq_loop]
    exact stageLoop_abort env regs _ (List.mem_range.mpr hi5)
      (stageStep_abort_of_deny env regs _ hen haddr hbin (by rw [hhash]; exact hskip_h)) _
  have hcount : (RefreshGraphicsKey env st.cstate regs).cstate.translate_log.count h
      = st.cstate.translate_log.count h := by
    obtain ⟨t, ht, he⟩ := refresh_log env st.cstate regs
    rw [ht]
    exact count_unchanged (fun e hmem2 heq => by
      have hfalse := he e hmem2
      rw [heq, hskip_h] at hfalse
      exact absurd hfalse (by simp))
  refine ⟨?_, ?_, ?_⟩
  · by_cases hp : regs.primitive_type = .patch
    · simp [GetGraphicsPipeline, hp]
    by_cases hm1 : regs.color_control_mode = .eliminateFastClear
    · simp [GetGraphicsPipeline, hp, hm1]
    by_cases hm2 : regs.color_control_mode = .fmaskDecompress
    · simp [GetGraphicsPipeline, hp, hm1, hm2]
    by_cases hn : regs.primitive_type = .noneType
    · simp [GetGraphicsPipeline, hp, hm1, hm2, hn]
    simp [GetGraphicsPipeline, hp, hm1, hm2, hn, hok]
  · by_cases hp : regs.primitive_type = .patch
    · simp [GetGraphicsPipeline, hp]
    by_cases hm1 : regs.color_control_mode = .eliminateFastClear
    · simp [GetGraphicsPipeline, hp, hm1]
    by_cases hm2 : regs.color_control_mode = .fmaskDecompress
    · simp [GetGraphicsPipeline, hp, hm1, hm2]
    by_cases hn : regs.primitive_type = .noneType
    · simp [GetGraphicsPipeline, hp, hm1, hm2, hn]
    simp [GetGraphicsPipeline, hp, hm1, hm2, hn, hok, hcount]
  · simp [GetComputePipeline, RefreshComputeKey, hcs, hskip_h]

/-- Witness for C7: hash 42 is denylisted in `envD`; the draw using it is
rejected with the translation log untouched, and a dispatch-only state
(benign graphics registers, denylisted compute hash) is rejected with the
whole state untouched. -/
theorem c7_witness :
    (GetGraphicsPipeline envD PCState.initial regsDeny).1 = none
    ∧ (GetGraphicsPipeline envD PCState.initial regsDeny).2.cstate.translate_log.count 42
        = PCState.initial.cstate.translate_log.count 42
    ∧ GetComputePipeline envD PCState.initial regsDenyC = (none, PCState.initial) :=
  c7_denylist_never_translated envD PCState.initial regsDeny 42 (by decide) 1 (by decide)
    (by decide) (by decide) (by decide) (by decide) PCState.initial regsDenyC (by decide)

lemma alook_insert_other {α β : Type} [DecidableEq α] {l : List (α × β)} {k k1 : α}
    {p : β} (v : β) (hl : alook l k = some p) (hnone : alook l k1 = none) :
    alook ((k1, v) :: l) k = some p := by
  simp only [alook]
  rw [if_neg (fun heq => by rw [heq, hl] at hnone; cases hnone)]
  exact hl

lemma gg_cases (env : Env) (st : PCState) (regs : Regs) :
    (EarlySkip regs ∧ GetGraphicsPipeline env st regs = (none, st))
    ∨ (¬EarlySkip regs
       ∧ (RefreshGraphicsKey env st.cstate regs).ok = false
       ∧ GetGraphicsPipeline env st regs
          = (none, { st with cstate := (RefreshGraphicsKey env st.cstate regs).cstate }))
    ∨ (∃ p, ¬EarlySkip regs
       ∧ (RefreshGraphicsKey env st.cstate regs).ok = true
       ∧ alook st.graphics_pipelines (RefreshGraphicsKey env st.cstate regs).key = some p
       ∧ GetGraphicsPipeline env st regs
          = (some p, { st with cstate := (RefreshGraphicsKey env st.cstate regs).cstate }))
    ∨ (¬EarlySkip regs
       ∧ (RefreshGraphicsKey env st.cstate regs).ok = true
       ∧ alook st.graphics_pipelines (RefreshGraphicsKey env st.cstate regs).key = none
       ∧ GetGraphicsPipeline env st regs
          = (some st.next_pipeline,
             { st with
               cstate := (RefreshGraphicsKey env st.cstate regs).cstate
               graphics_pipelines :=
                 ((RefreshGraphicsKey env st.cstate regs).key, st.next_pipeline)
                   :: st.graphics_pipelines
               next_pipeline := st.next_pipeline + 1
               created_g := st.created_g ++ [(RefreshGraphicsKey env st.cstate regs).key] })) := by
  by_cases hp : regs.primitive_type = .patch
  · exact Or.inl ⟨Or.inl hp, by simp [GetGraphicsPipeline, hp]⟩
  by_cases hm1 : regs.color_control_mode = .eliminateFastClear
  · exact Or.inl ⟨Or.inr (Or.inl hm1), by simp [GetGraphicsPipeline, hp, hm1]⟩
  by_cases hm2 : regs.color_control_mode = .fmaskDecompress
  · exact Or.inl ⟨Or.inr (Or.inr (Or.inl hm2)), by simp [GetGraphicsPipeline, hp, hm1, hm2]⟩
  by_cases hn : regs.primitive_type = .noneType
  · exact Or.inl ⟨Or.inr (Or.inr (Or.inr hn)), by simp [GetGraphicsPipeline, hp, hm1, hm2, hn]⟩
  have hne : ¬EarlySkip regs := by simp [EarlySkip, hp, hm1, hm2, hn]
  cases hok : (RefreshGraphicsKey env st.cstate regs).ok with
  | false =>
    exact Or.inr (Or.inl ⟨hne, rfl, by simp [GetGraphicsPipeline, hp, hm1, hm2, hn, hok]⟩)
  | true =>
    cases halook : alook st.graphics_pipelines (RefreshGraphicsKey env st.cstate regs).key with
    | some p =>
      exact Or.inr (Or.inr (Or.inl ⟨p, hne, rfl,
        rfl, by simp [GetGraphicsPipeline, hp, hm1, hm2, hn, hok, halook]⟩))
    | none =>
      exact Or.inr (Or.inr (Or.inr ⟨hne, rfl, rfl,
        by simp [GetGraphicsPipeline, hp, hm1, hm2, hn, hok, halook]⟩))

lemma gc_cases (env : Env) (st : PCState) (regs : Regs) :
    ((RefreshComputeKey env st.cstate regs).1 = false
     ∧ GetComputePipeline env st regs = (none, st))
    ∨ (∃ p, (RefreshComputeKey env st.cstate regs).1 = true
       ∧ alook st.compute_pipelines (RefreshComputeKey env st.cstate regs).2.1 = some p
       ∧ GetComputePipeline env st regs
          = (some p, { st with cstate := (RefreshComputeKey env st.cstate regs).2.2.2.2 }))
    ∨ ((RefreshComputeKey env st.cstate regs).1 = true
       ∧ alook st.compute_pipelines (RefreshComputeKey env st.cstate regs).2.1 = none
       ∧ GetComputePipeline env st regs
          = (some st.next_pipeline,
             { st with
               cstate := (RefreshComputeKey env st.cstate regs).2.2.2.2
               compute_pipelines :=
                 ((RefreshComputeKey env st.cstate regs).2.1, st.next_pipeline)
                   :: st.compute_pipelines
               next_pipeline := st.next_pipeline + 1
               created_c := st.created_c
                 ++ [(RefreshComputeKey env st.cstate regs).2.1] })) := by
  cases hok : (RefreshComputeKey env st.cstate regs).1 with
  | false => exact Or.inl ⟨rfl, by simp [GetComputePipeline, hok]⟩
  | true =>
    cases halook : alook st.compute_pipelines (RefreshComputeKey env st.cstate regs).2.1 with
    | some p =>
      exact Or.inr (Or.inl ⟨p, rfl, rfl, by simp [GetComputePipeline, hok, halook]⟩)
    | none =>
      exact Or.inr (Or.inr ⟨rfl, rfl, by simp [GetComputePipeline, hok, halook]⟩)

lemma gg_preserves_g (env : Env) (st : PCState) (regs : Regs) {k : GraphicsPipelineKey}
    {p : Nat} (hl : alook st.graphics_pipelines k = some p) :
    alook (GetGraphicsPipeline env st regs).2.graphics_pipelines k = some p := by
  rcases gg_cases env st regs with ⟨_, heq⟩ | ⟨_, _, heq⟩ | ⟨q, _, _, _, heq⟩
      | ⟨_, _, hnone, heq⟩ <;> rw [heq]
  · exact hl
  · exact hl
  · exact hl
  · exact alook_insert_other _ hl hnone

lemma gg_preserves_c (env : Env) (st : PCState) (regs : Regs) :
    (GetGraphicsPipeline env st regs).2.compute_pipelines = st.compute_pipelines := by
  rcases gg_cases env st regs with ⟨_, heq⟩ | ⟨_, _, heq⟩ | ⟨q, _, _, _, heq⟩
      | ⟨_, _, _, heq⟩ <;> rw [heq]

lemma gc_preserves_c (env : Env) (st : PCState) (regs : Regs) {k : Nat}
    {p : Nat} (hl : alook st.compute_pipelines k = some p) :
    alook (GetComputePipeline env st regs).2.compute_pipelines k = some p := by
  rcases gc_cases env st regs with ⟨_, heq⟩ | ⟨q, _, _, heq⟩ | ⟨_, hnone, heq⟩ <;> rw [heq]
  · exact hl
  · exact hl
  · exact alook_insert_other _ hl hnone

lemma gc_preserves_g (env : Env) (st : PCState) (regs : Regs) :
    (GetComputePipeline env st regs).2.graphics_pipelines = st.graphics_pipelines := by
  rcases gc_cases env st regs with ⟨_, heq⟩ | ⟨q, _, _, heq⟩ | ⟨_, _, heq⟩ <;> rw [heq]

lemma run_preserves_g (env : Env) (ops : List DrawOp) :
    ∀ (st : PCState) {k : GraphicsPipelineKey} {p : Nat},
      alook st.graphics_pipelines k = some p →
      alook (runOps env st ops).graphics_pipelines k = some p := by
  induction ops with
  | nil => intro st k p hl; exact hl
  | cons op rest ih =>
    intro st k p hl
    cases op with
    | gfx regs => exact ih _ (gg_preserves_g env st regs hl)
    | cmp regs => exact ih _ (by rw [stepOp, gc_preserves_g]; exact hl)

lemma run_preserves_c (env : Env) (ops : List DrawOp) :
    ∀ (st : PCState) {k : Nat} {p : Nat},
      alook st.compute_pipelines k = some p →
      alook (runOps env st ops).compute_pipelines k = some p := by
  induction ops with
  | nil => intro st k p hl; exact hl
  | cons op rest ih =>
    intro st k p hl
    cases op with
    | gfx regs => exact ih _ (by rw [stepOp, gg_preserves_c]; exact hl)
    | cmp regs => exact ih _ (gc_preserves_c env st regs hl)

lemma gg_hit (env : Env) (st : PCState) (regs : Regs) {p : Nat}
    (hres : (GetGraphicsPipeline env st regs).1 = some p) :
    alook (GetGraphicsPipeline env st regs).2.graphics_pipelines
      (RefreshGraphicsKey env st.cstate regs).key = some p := by
  rcases gg_cases env st regs with ⟨_, heq⟩ | ⟨_, _, heq⟩ | ⟨q, _, _, halook, heq⟩
      | ⟨_, _, hnone, heq⟩ <;> rw [heq] at hres ⊢
  · cases hres
  · cases hres
  · cases hres; exact halook
  · cases hres; simp [alook]

lemma gg_lookup_out (env : Env) (st : PCState) (regs : Regs) {p q : Nat}
    (hl : alook st.graphics_pipelines (RefreshGraphicsKey env st.cstate regs).key = some p)
    (hres : (GetGraphicsPipeline env st regs).1 = some q) : q = p := by
  rcases gg_cases env st regs with ⟨_, heq⟩ | ⟨_, _, heq⟩ | ⟨r, _, _, halook, heq⟩
      | ⟨_, _, hnone, heq⟩ <;> rw [heq] at hres
  · cases hres
  · cases hres
  · cases hres; rw [hl] at halook; cases halook; rfl
  · rw [hl] at hnone; cases hnone

lemma gc_hit (env : Env) (st : PCState) (regs : Regs) {p : Nat}
    (hres : (GetComputePipeline env st regs).1 = some p) :
    alook (GetComputePipeline env st regs).2.compute_pipelines
      (RefreshComputeKey env st.cstate regs).2.1 = some p := by
  rcases gc_cases env st regs with ⟨_, heq⟩ | ⟨q, _, halook, heq⟩ | ⟨_, hnone, heq⟩ <;>
    rw [heq] at hres ⊢
  · cases hres
  · cases hres; exact halook
  · cases hres; simp [alook]

lemma gc_lookup_out (env : Env) (st : PCState) (regs : Regs) {p q : Nat}
    (hl : alook st.compute_pipelines (RefreshComputeKey env st.cstate regs).2.1 = some p)
    (hres : (GetComputePipeline env st regs).1 = some q) : q = p := by
  rcases gc_cases env st regs with ⟨_, heq⟩ | ⟨r, _, halook, heq⟩ | ⟨_, hnone, heq⟩ <;>
    rw [heq] at hres
  · cases hres
  · cases hres; rw [hl] at halook; cases halook; rfl
  · rw [hl] at hnone; cases hnone

lemma inv_insert {α : Type} [DecidableEq α] {l : List (α × Nat)} {created : List α} {key : α}
    (hnd : created.Nodup) (hiff : ∀ k, (alook l k).isSome ↔ k ∈ created)
    (hnone : alook l key = none) (v : Nat) :
    (created ++ [key]).Nodup
    ∧ ∀ k, (alook ((key, v) :: l) k).isSome ↔ k ∈ created ++ [key] := by
  have hnotin : key ∉ created := fun hmem => by
    have hsome := (hiff key).mpr hmem
    rw [hnone] at hsome
    simp at hsome
  constructor
  · exact List.Nodup.append hnd (List.nodup_singleton key) (by
      intro a ha hb
      simp only [List.mem_singleton] at hb
      subst hb
      exact hnotin ha)
  · intro k
    by_cases hk : key = k
    · subst hk; simp [alook]
    · simp only [alook, if_neg hk, List.mem_append, List.mem_singleton]
      rw [hiff k]
      constructor
      · exact Or.inl
      · rintro (hm | hm)
        · exact hm
        · exact absurd hm (fun hh => hk hh.symm)

lemma step_inv (env : Env) (st : PCState) (op : DrawOp) (hinv : PCInv st) :
    PCInv (stepOp env st op) := by
  obtain ⟨hg, hc, hig, hic⟩ := hinv
  cases op with
  | gfx regs =>
    rcases gg_cases env st regs with ⟨_, heq⟩ | ⟨_, _, heq⟩ | ⟨q, _, _, _, heq⟩
      | ⟨_, _, hnone, heq⟩ <;> simp only [stepOp, heq]
    · exact ⟨hg, hc, hig, hic⟩
    · exact ⟨hg, hc, hig, hic⟩
    · exact ⟨hg, hc, hig, hic⟩
    · obtain ⟨hnd2, hiff2⟩ := inv_insert hg hig hnone st.next_pipeline
      exact ⟨hnd2, hc, hiff2, hic⟩
  | cmp regs =>
    rcases gc_cases env st regs with ⟨_, heq⟩ | ⟨q, _, _, heq⟩ | ⟨_, hnone, heq⟩ <;>
      simp only [stepOp, heq]
    · exact ⟨hg, hc, hig, hic⟩
    · exact ⟨hg, hc, hig, hic⟩
    · obtain ⟨hnd2, hiff2⟩ := inv_insert hc hic hnone st.next_pipeline
      exact ⟨hg, hnd2, hig, hiff2⟩

lemma run_inv (env : Env) (ops : List DrawOp) :
    ∀ (st : PCState), PCInv st → PCInv (runOps env st ops) := by
  induction ops with
  | nil => intro st hinv; exact hinv
  | cons op rest ih => intro st hinv; exact ih _ (step_inv env st op hinv)

lemma PCInv_initial : PCInv PCState.initial := by
  refine ⟨List.nodup_nil, List.nodup_nil, ?_, ?_⟩ <;>
    intro k <;> simp [PCState.initial, alook]

/-- C3: at most one pipeline object per distinct key.  Two
`GetGraphicsPipeline` calls (with any drawn/dispatched traffic between
them) whose refreshed graphics keys are bit-equal return the same object;
the same holds for `GetComputePipeline` and compute keys.  Starting from
the empty cache, the construction logs never repeat a key and the maps
hold exactly the created keys.  A failed refresh inserts nothing: a failed
graphics refresh leaves the pipeline map and construction log untouched,
and a failed compute refresh leaves the entire state untouched. -/
theorem c3_one_object_per_key (env : Env) (st : PCState) (regs1 regs2 : Regs)
    (ops ops2 : List DrawOp) (p q : Nat)
    (stc : PCState) (regsc1 regsc2 : Regs) (opsc : List DrawOp) (pc qc : Nat)
    (st3 : PCState) (regs3 : Regs) (kk : GraphicsPipelineKey)
    (h1 : (GetGraphicsPipeline env st regs1).1 = some p)
    (hkeys : (RefreshGraphicsKey env
        (runOps env (GetGraphicsPipeline env st regs1).2 ops).cstate regs2).key
      = (RefreshGraphicsKey env st.cstate regs1).key)
    (h2 : (GetGraphicsPipeline env (runOps env (GetGraphicsPipeline env st regs1).2 ops)
        regs2).1 = some q)
    (hc1 : (GetComputePipeline env stc regsc1).1 = some pc)
    (hckeys : (RefreshComputeKey env
        (runOps env (GetComputePipeline env stc regsc1).2 opsc).cstate regsc2).2.1
      = (RefreshComputeKey env stc.cstate regsc1).2.1)
    (hc2 : (GetComputePipeline env (runOps env (GetComputePipeline env stc regsc1).2 opsc)
        regsc2).1 = some qc) :
    q = p ∧ qc = pc
    ∧ (runOps env PCState.initial ops2).created_g.Nodup
    ∧ (runOps env PCState.initial ops2).created_c.Nodup
    ∧ ((alook (runOps env PCState.initial ops2).graphics_pipelines kk).isSome
        ↔ kk ∈ (runOps env PCState.initial ops2).created_g)
    ∧ ((RefreshGraphicsKey env st3.cstate regs3).ok = false →
        (GetGraphicsPipeline env st3 regs3).2.graphics_pipelines = st3.graphics_pipelines
        ∧ (GetGraphicsPipeline env st3 regs3).2.created_g = st3.created_g)
    ∧ ((RefreshComputeKey env st3.cstate regs3).1 = false →
        GetComputePipeline env st3 regs3 = (none, st3)) := by
  obtain ⟨hnd_g, hnd_c, hiff_g, _⟩ := run_inv env ops2 PCState.initial PCInv_initial
  refine ⟨?_, ?_, hnd_g, hnd_c, hiff_g kk, ?_, ?_⟩
  · have hstore := gg_hit env st regs1 h1
    have hpersist := run_preserves_g env ops _ hstore
    rw [← hkeys] at hpersist
    exact gg_lookup_out env _ regs2 hpersist h2
  · have hstore := gc_hit env stc regsc1 hc1
    have hpersist := run_preserves_c env opsc _ hstore
    rw [← hckeys] at hpersist
    exact gc_lookup_out env _ regsc2 hpersist hc2
  · intro hfail
    rcases gg_cases env st3 regs3 with ⟨_, heq⟩ | ⟨_, _, heq⟩ | ⟨r, _, hok, _, heq⟩
      | ⟨_, hok, _, heq⟩ <;> rw [heq]
    · exact ⟨rfl, rfl⟩
    · exact ⟨rfl, rfl⟩
    · rw [hfail] at hok; cases hok
    · rw [hfail] at hok; cases hok
  · intro hfail
    rcases gc_cases env st3 regs3 with ⟨_, heq⟩ | ⟨r, hok, _, heq⟩ | ⟨hok, _, heq⟩
    · exact heq
    · rw [hfail] at hok; cases hok
    · rw [hfail] at hok; cases hok

/-- Witness for C3 at concrete draws: a repeated graphics draw and a
repeated compute dispatch return pipeline 0 both times, and a two-op run
creates each key once. -/
theorem c3_witness :
    (0 : Nat) = 0 ∧ (0 : Nat) = 0
    ∧ (runOps envT PCState.initial [DrawOp.gfx regsVF, DrawOp.cmp regs0]).created_g.Nodup
    ∧ (runOps envT PCState.initial [DrawOp.gfx regsVF, DrawOp.cmp regs0]).created_c.Nodup
    ∧ ((alook (runOps envT PCState.initial
          [DrawOp.gfx regsVF, DrawOp.cmp regs0]).graphics_pipelines
          (RefreshGraphicsKey envT CState0 regsVF).key).isSome
        ↔ (RefreshGraphicsKey envT CState0 regsVF).key
          ∈ (runOps envT PCState.initial [DrawOp.gfx regsVF, DrawOp.cmp regs0]).created_g)
    ∧ ((RefreshGraphicsKey envT PCState.initial.cstate regsPatch).ok = false →
        (GetGraphicsPipeline envT PCState.initial regsPatch).2.graphics_pipelines
          = PCState.initial.graphics_pipelines
        ∧ (GetGraphicsPipeline envT PCState.initial regsPatch).2.created_g
          = PCState.initial.created_g)
    ∧ ((RefreshComputeKey envT PCState.initial.cstate regs0).1 = false →
        GetComputePipeline envT PCState.initial regs0 = (none, PCState.initial)) :=
  c3_one_object_per_key envT PCState.initial regsVF regsVF []
    [DrawOp.gfx regsVF, DrawOp.cmp regs0] 0 0
    PCState.initial regs0 regs0 [] 0 0 PCState.initial regsPatch
    (RefreshGraphicsKey envT CState0 regsVF).key
    (by decide) (by decide) (by decide) (by decide) (by decide) (by decide)

lemma cext_refl (a : CState) : CExt a a :=
  fun _ p hp => ⟨p, hp, rfl, [], by simp⟩

lemma cext_trans {a b c : CState} (hab : CExt a b) (hbc : CExt b c) : CExt a c := by
  intro h p hp
  obtain ⟨q, hq, hqi, t1, hqm⟩ := hab h p hp
  obtain ⟨r, hr, hri, t2, hrm⟩ := hbc h q hq
  exact ⟨r, hr, hri.trans hqi, t1 ++ t2, by rw [hrm, hqm, List.append_assoc]⟩

lemma alook_aupdate_self {α β : Type} [DecidableEq α] {l : List (α × β)} {k : α} {v0 : β}
    (hl : alook l k = some v0) (v : β) : alook (aupdate l k v) k = some v := by
  induction l with
  | nil => simp [alook] at hl
  | cons kv rest ih =>
    obtain ⟨k1, v1⟩ := kv
    simp only [alook, aupdate] at hl ⊢
    by_cases hk : k1 = k
    · rw [if_pos hk]; simp [alook]
    · rw [if_neg hk]
      simp only [alook, if_neg hk]
      exact ih (by rwa [if_neg hk] at hl)

lemma alook_aupdate_ne {α β : Type} [DecidableEq α] {l : List (α × β)} {k k1 : α}
    (hk : k ≠ k1) (v : β) : alook (aupdate l k v) k1 = alook l k1 := by
  induction l with
  | nil => simp [aupdate]
  | cons kv rest ih =>
    obtain ⟨k2, v2⟩ := kv
    simp only [alook, aupdate]
    by_cases hk2 : k2 = k
    · rw [if_pos hk2]
      simp only [alook, if_neg hk, if_neg (hk2 ▸ hk : ¬k2 = k1)]
    · rw [if_neg hk2]
      simp only [alook]
      split
      · rfl
      · exact ih

lemma findSpec_extends {l : List PermEntry} {sp : StageSpecialization} {im : Nat × Nat}
    (h : findSpec l sp = some im) (t : List PermEntry) : findSpec (l ++ t) sp = some im := by
  induction l generalizing im with
  | nil => simp [findSpec] at h
  | cons e rest ih =>
    rw [List.cons_append]
    simp only [findSpec] at h ⊢
    by_cases he : e.spec = sp
    · rw [if_pos he] at h ⊢; exact h
    · rw [if_neg he] at h ⊢
      rcases hr : findSpec rest sp with _ | im2
      · rw [hr] at h; cases h
      · rw [hr] at h; rw [ih hr]; exact h

lemma findSpec_append_first {l : List PermEntry} {sp : StageSpecialization}
    (h : findSpec l sp = none) (m : Nat) (t : List PermEntry) :
    findSpec (l ++ ⟨m, sp⟩ :: t) sp = some (l.length, m) := by
  induction l with
  | nil => simp [findSpec]
  | cons e rest ih =>
    rw [List.cons_append]
    simp only [findSpec] at h ⊢
    by_cases he : e.spec = sp
    · rw [if_pos he] at h; cases h
    · rw [if_neg he] at h ⊢
      rcases hr : findSpec rest sp with _ | im2
      · rw [ih hr]; simp
      · rw [hr] at h; cases h

lemma GetProgram_eq_new (env : Env) (regs : Regs) (mrts : List SwapMode) (stage : Stage)
    (params : ShaderParams) (b : Nat) (cst : CState)
    (halook : alook cst.programs params.hash = none) :
    GetProgram env regs mrts stage params b cst
      = (⟨env.translatedInfo stage params (BuildRuntimeInfo env regs mrts stage),
          cst.next_module, HashCombine params.hash 0⟩,
         b + env.emitAdvance (BuildRuntimeInfo env regs mrts stage)
           (env.translatedInfo stage params (BuildRuntimeInfo env regs mrts stage)),
         ⟨(params.hash,
            ⟨env.translatedInfo stage params (BuildRuntimeInfo env regs mrts stage),
             [⟨cst.next_module,
               ⟨env.translatedInfo stage params (BuildRuntimeInfo env regs mrts stage),
                BuildRuntimeInfo env regs mrts stage, b⟩⟩]⟩) :: cst.programs,
          cst.next_module + 1, cst.translate_log ++ [params.hash]⟩) := by
  simp only [GetProgram, compileModule]
  rw [halook]

lemma GetProgram_eq_match (env : Env) (regs : Regs) (mrts : List SwapMode) (stage : Stage)
    (params : ShaderParams) (b : Nat) (cst : CState) {prog : Program} {im : Nat × Nat}
    (halook : alook cst.programs params.hash = some prog)
    (hfind : findSpec prog.modules
      ⟨prog.info, BuildRuntimeInfo env regs mrts stage, b⟩ = some im) :
    GetProgram env regs mrts stage params b cst
      = (⟨prog.info, im.2, HashCombine params.hash im.1⟩,
         b + prog.info.num_bindings, cst) := by
  simp only [GetProgram, compileModule]
  rw [halook]
  dsimp only
  rw [hfind]

lemma GetProgram_eq_miss (env : Env) (regs : Regs) (mrts : List SwapMode) (stage : Stage)
    (params : ShaderParams) (b : Nat) (cst : CState) {prog : Program}
    (halook : alook cst.programs params.hash = some prog)
    (hfind : findSpec prog.modules
      ⟨prog.info, BuildRuntimeInfo env regs mrts stage, b⟩ = none) :
    GetProgram env regs mrts stage params b cst
      = (⟨prog.info, cst.next_module, HashCombine params.hash prog.modules.length⟩,
         b + env.emitAdvance (BuildRuntimeInfo env regs mrts stage)
           (env.translatedInfo stage params (BuildRuntimeInfo env regs mrts stage)),
         ⟨aupdate cst.programs params.hash
            ⟨prog.info, prog.modules
              ++ [⟨cst.next_module,
                   ⟨prog.info, BuildRuntimeInfo env regs mrts stage, b⟩⟩]⟩,
          cst.next_module + 1, cst.translate_log ++ [params.hash]⟩) := by
  simp only [GetProgram, compileModule]
  rw [halook]
  dsimp only
  rw [hfind]

lemma getProgram_ext (env : Env) (regs : Regs) (mrts : List SwapMode) (stage : Stage)
    (params : ShaderParams) (b : Nat) (cst : CState) :
    CExt cst (GetProgram env regs mrts stage params b cst).2.2 := by
  rcases halook : alook cst.programs params.hash with _ | prog
  · rw [GetProgram_eq_new env regs mrts stage params b cst halook]
    intro h p hp
    by_cases hh : params.hash = h
    · rw [hh, hp] at halook; cases halook
    · exact ⟨p, by simp only [alook, if_neg hh]; exact hp, rfl, [], by simp⟩
  · rcases hfind : findSpec prog.modules
        ⟨prog.info, BuildRuntimeInfo env regs mrts stage, b⟩ with _ | im
    · rw [GetProgram_eq_miss env regs mrts stage params b cst halook hfind]
      intro h p hp
      by_cases hh : params.hash = h
      · subst hh
        have hpe : p = prog := by
          rw [hp] at halook
          exact Option.some.inj halook
        subst hpe
        exact ⟨_, alook_aupdate_self hp _, rfl, _, rfl⟩
      · exact ⟨p, by rw [alook_aupdate_ne hh]; exact hp, rfl, [], by simp⟩
    · rw [GetProgram_eq_match env regs mrts stage params b cst halook hfind]
      exact cext_refl cst

lemma getProgram_wfc (env : Env) (regs : Regs) (mrts : List SwapMode) (stage : Stage)
    (params : ShaderParams) (b : Nat) (cst : CState)
    (H2 : BindingsByHash env) (hwf : WFC env cst) :
    WFC env (GetProgram env regs mrts stage params b cst).2.2 := by
  rcases halook : alook cst.programs params.hash with _ | prog
  · rw [GetProgram_eq_new env regs mrts stage params b cst halook]
    intro h p hp
    by_cases hh : params.hash = h
    · subst hh
      simp only [alook, if_pos rfl] at hp
      cases hp
      exact H2 stage params (BuildRuntimeInfo env regs mrts stage)
    · simp only [alook, if_neg hh] at hp
      exact hwf h p hp
  · rcases hfind : findSpec prog.modules
        ⟨prog.info, BuildRuntimeInfo env regs mrts stage, b⟩ with _ | im
    · rw [GetProgram_eq_miss env regs mrts stage params b cst halook hfind]
      intro h p hp
      by_cases hh : params.hash = h
      · subst hh
        rw [alook_aupdate_self halook _] at hp
        cases hp
        exact hwf params.hash prog halook
      · rw [alook_aupdate_ne hh] at hp
        exact hwf h p hp
    · rw [GetProgram_eq_match env regs mrts stage params b cst halook hfind]
      exact hwf

lemma getProgram_replay (env : Env) (regs : Regs) (mrts : List SwapMode) (stage : Stage)
    (params : ShaderParams) (b : Nat) (cst : CState)
    (H1 : EmitConsistent env) (H2 : BindingsByHash env) {C : CState}
    (hext : CExt (GetProgram env regs mrts stage params b cst).2.2 C)
    (hwfC : WFC env C) :
    GetProgram env regs mrts stage params b C
      = ((GetProgram env regs mrts stage params b cst).1,
         (GetProgram env regs mrts stage params b cst).2.1, C) := by
  rcases halook : alook cst.programs params.hash with _ | prog
  · rw [GetProgram_eq_new env regs mrts stage params b cst halook] at hext ⊢
    obtain ⟨Q, hQl, hQi, t, hQm⟩ := hext params.hash
      ⟨env.translatedInfo stage params (BuildRuntimeInfo env regs mrts stage),
       [⟨cst.next_module,
         ⟨env.translatedInfo stage params (BuildRuntimeInfo env regs mrts stage),
          BuildRuntimeInfo env regs mrts stage, b⟩⟩]⟩ (by simp [alook])
    have hfindQ : findSpec Q.modules
        ⟨Q.info, BuildRuntimeInfo env regs mrts stage, b⟩ = some (0, cst.next_module) := by
      rw [hQm, hQi]
      simp [findSpec]
    rw [GetProgram_eq_match env regs mrts stage params b C hQl hfindQ, hQi,
      H1 (BuildRuntimeInfo env regs mrts stage)
        (env.translatedInfo stage params (BuildRuntimeInfo env regs mrts stage))]
  · rcases hfind : findSpec prog.modules
        ⟨prog.info, BuildRuntimeInfo env regs mrts stage, b⟩ with _ | im
    · rw [GetProgram_eq_miss env regs mrts stage params b cst halook hfind] at hext ⊢
      obtain ⟨Q, hQl, hQi, t, hQm⟩ := hext params.hash
        ⟨prog.info, prog.modules
          ++ [⟨cst.next_module, ⟨prog.info, BuildRuntimeInfo env regs mrts stage, b⟩⟩]⟩
        (alook_aupdate_self halook _)
      have hfindQ : findSpec Q.modules
          ⟨Q.info, BuildRuntimeInfo env regs mrts stage, b⟩
          = some (prog.modules.length, cst.next_module) := by
        rw [hQm, hQi]
        rw [List.append_assoc, List.singleton_append]
        exact findSpec_append_first hfind cst.next_module t
      have hbind : Q.info.num_bindings
          = env.emitAdvance (BuildRuntimeInfo env regs mrts stage)
            (env.translatedInfo stage params (BuildRuntimeInfo env regs mrts stage)) := by
        rw [H1, H2]
        exact hwfC params.hash Q hQl
      rw [GetProgram_eq_match env regs mrts stage params b C hQl hfindQ, hbind, hQi]
    · rw [GetProgram_eq_match env regs mrts stage params b cst halook hfind] at hext ⊢
      obtain ⟨Q, hQl, hQi, t, hQm⟩ := hext params.hash prog halook
      have hfindQ : findSpec Q.modules
          ⟨Q.info, BuildRuntimeInfo env regs mrts stage, b⟩ = some im := by
        rw [hQm, hQi]
        exact findSpec_extends hfind t
      rw [GetProgram_eq_match env regs mrts stage params b C hQl hfindQ, hQi]

lemma stageStep_ext (env : Env) (regs : Regs) (mrts : List SwapMode) (i : Nat)
    {ls ls1 : LoopState} (hstep : stageStep env regs mrts i ls = some ls1) :
    CExt ls.cst ls1.cst := by
  rcases stageStep_cst env regs mrts i hstep with hsame | ⟨_, hgp⟩
  · rw [hsame]; exact cext_refl _
  · rw [hgp]; exact getProgram_ext env regs mrts (StageFromIndex i) _ ls.binding ls.cst

lemma stageStep_wfc (env : Env) (regs : Regs) (mrts : List SwapMode) (i : Nat)
    (H2 : BindingsByHash env) {ls ls1 : LoopState}
    (hstep : stageStep env regs mrts i ls = some ls1) (hwf : WFC env ls.cst) :
    WFC env ls1.cst := by
  rcases stageStep_cst env regs mrts i hstep with hsame | ⟨_, hgp⟩
  · rw [hsame]; exact hwf
  · rw [hgp]; exact getProgram_wfc env regs mrts (StageFromIndex i) _ ls.binding ls.cst H2 hwf

lemma stageLoop_ext (env : Env) (regs : Regs) (mrts : List SwapMode) :
    ∀ (l : List Nat) (ls : LoopState), CExt ls.cst (stageLoop env regs mrts l ls).2.cst := by
  intro l
  induction l with
  | nil => intro ls; exact cext_refl _
  | cons i rest ih =>
    intro ls
    simp only [stageLoop]
    cases hstep : stageStep env regs mrts i ls with
    | none => exact cext_refl _
    | some ls1 => exact cext_trans (stageStep_ext env regs mrts i hstep) (ih ls1)

lemma stageLoop_wfc (env : Env) (regs : Regs) (mrts : List SwapMode)
    (H2 : BindingsByHash env) :
    ∀ (l : List Nat) (ls : LoopState), WFC env ls.cst →
      WFC env (stageLoop env regs mrts l ls).2.cst := by
  intro l
  induction l with
  | nil => intro ls hwf; exact hwf
  | cons i rest ih =>
    intro ls hwf
    simp only [stageLoop]
    cases hstep : stageStep env regs mrts i ls with
    | none => exact hwf
    | some ls1 => exact ih ls1 (stageStep_wfc env regs mrts i H2 hstep hwf)

lemma stageStep_none_replay (env : Env) (regs : Regs) (mrts : List SwapMode) (i : Nat)
    {ls : LoopState} (h : stageStep env regs mrts i ls = none) (ls2 : LoopState) :
    stageStep env regs mrts i ls2 = none := by
  simp only [stageStep] at h ⊢
  split at h
  next h1 => cases h
  next h1 =>
    rw [if_neg h1]
    split at h
    next h2 => cases h
    next h2 =>
      rw [if_neg h2]
      split at h
      next h3 => cases h
      next h3 =>
        rw [if_neg h3]
        split at h
        next h4 => rw [if_pos h4]
        next h4 =>
          rw [if_neg h4]
          split at h
          next h5 => rw [if_pos h5]
          next h5 =>
            rw [if_neg h5]
            split at h
            next h6 => rw [if_pos h6]
            next h6 => cases h

lemma stageStep_replay (env : Env) (regs : Regs) (mrts : List SwapMode) (i : Nat)
    (H1 : EmitConsistent env) (H2 : BindingsByHash env)
    {b : Nat} {hs : List Nat} {infs : List (Option ShaderInfo)} {ms : List Nat} {cs : CState}
    {ls1 : LoopState} (hstep : stageStep env regs mrts i ⟨b, hs, infs, ms, cs⟩ = some ls1)
    {C : CState} (hext : CExt ls1.cst C) (hwfC : WFC env C) :
    stageStep env regs mrts i ⟨b, hs, infs, ms, C⟩ = some { ls1 with cst := C } := by
  simp only [stageStep] at hstep ⊢
  split at hstep
  next h1 => rw [if_pos h1]; cases hstep; rfl
  next h1 =>
    rw [if_neg h1]
    split at hstep
    next h2 => rw [if_pos h2]; cases hstep; rfl
    next h2 =>
      rw [if_neg h2]
      split at hstep
      next h3 => rw [if_pos h3]; cases hstep; rfl
      next h3 =>
        rw [if_neg h3]
        split at hstep
        next h4 => cases hstep
        next h4 =>
          rw [if_neg h4]
          split at hstep
          next h5 => cases hstep
          next h5 =>
            rw [if_neg h5]
            split at hstep
            next h6 => cases hstep
            next h6 =>
              rw [if_neg h6]
              cases hstep
              rw [getProgram_replay env regs mrts (StageFromIndex i)
                ⟨(regs.programs.getD i SPRzero).shader_hash⟩ b cs H1 H2 hext hwfC]

lemma stageLoop_replay (env : Env) (regs : Regs) (mrts : List SwapMode)
    (H1 : EmitConsistent env) (H2 : BindingsByHash env) :
    ∀ (l : List Nat) (b : Nat) (hs : List Nat) (infs : List (Option ShaderInfo))
      (ms : List Nat) (cs : CState) (ok : Bool) (out : LoopState) (C : CState),
      stageLoop env regs mrts l ⟨b, hs, infs, ms, cs⟩ = (ok, out) →
      WFC env cs → CExt out.cst C → WFC env C →
      stageLoop env regs mrts l ⟨b, hs, infs, ms, C⟩ = (ok, { out with cst := C }) := by
  intro l
  induction l with
  | nil =>
    intro b hs infs ms cs ok out C heq hwf hext hwfC
    simp only [stageLoop] at heq ⊢
    cases heq
    rfl
  | cons i rest ih =>
    intro b hs infs ms cs ok out C heq hwf hext hwfC
    simp only [stageLoop] at heq ⊢
    cases hstep : stageStep env regs mrts i ⟨b, hs, infs, ms, cs⟩ with
    | none =>
      rw [hstep] at heq
      cases heq
      rw [stageStep_none_replay env regs mrts i hstep ⟨b, hs, infs, ms, C⟩]
    | some ls1 =>
      rw [hstep] at heq
      dsimp only at heq
      have hext1 : CExt ls1.cst out.cst := by
        have h0 := stageLoop_ext env regs mrts rest ls1
        rw [heq] at h0
        exact h0
      have hwf1 : WFC env ls1.cst := stageStep_wfc env regs mrts i H2 hstep hwf
      obtain ⟨b1, hs1, infs1, ms1, cs1⟩ := ls1
      rw [stageStep_replay env regs mrts i H1 H2 hstep (cext_trans hext1 hext) hwfC]
      exact ih b1 hs1 infs1 ms1 cs1 ok out C heq hwf1 hext hwfC

lemma refresh_replay (env : Env) (cst : CState) (regs : Regs)
    (H1 : EmitConsistent env) (H2 : BindingsByHash env) (hwf : WFC env cst) :
    RefreshGraphicsKey env (RefreshGraphicsKey env cst regs).cstate regs
      = RefreshGraphicsKey env cst regs := by
  rcases hsl : stageLoop env regs (buildBaseKey env regs).mrt_swizzles
      (List.range MaxShaderStages)
      ⟨0, List.replicate 5 0, List.replicate 5 none, List.replicate 5 0, cst⟩ with ⟨ok, out⟩
  have hwout : WFC env out.cst := by
    have h0 := stageLoop_wfc env regs (buildBaseKey env regs).mrt_swizzles H2
      (List.range MaxShaderStages)
      ⟨0, List.replicate 5 0, List.replicate 5 none, List.replicate 5 0, cst⟩ hwf
    rw [hsl] at h0
    exact h0
  have hrep := stageLoop_replay env regs (buildBaseKey env regs).mrt_swizzles H1 H2
    (List.range MaxShaderStages) 0 (List.replicate 5 0) (List.replicate 5 none)
    (List.replicate 5 0) cst ok out out.cst hsl hwf (cext_refl _) hwout
  simp only [RefreshGraphicsKey, hsl]
  cases ok <;> simp only [] <;> rw [hrep]

/-- C4: `GetGraphicsPipeline` is idempotent under unchanged register state,
assuming the external translator is binding-consistent (`EmitSPIRV` advances
the cursor by the translated binding count, and the binding count of a
bytecode is independent of runtime info) and the program cache is
well-formed in that sense.  The second call returns the same result and
leaves the whole cache state unchanged — in particular the translation log
is untouched, so no new shader module is compiled: every lookup of the
second call matches an existing permutation. -/
theorem c4_idempotent (env : Env) (st : PCState) (regs : Regs)
    (H1 : EmitConsistent env) (H2 : BindingsByHash env) (hwf : WFC env st.cstate) :
    GetGraphicsPipeline env (GetGraphicsPipeline env st regs).2 regs
      = GetGraphicsPipeline env st regs
    ∧ (GetGraphicsPipeline env (GetGraphicsPipeline env st regs).2 regs).2.cstate.translate_log
      = (GetGraphicsPipeline env st regs).2.cstate.translate_log := by
  have hr2 := refresh_replay env st.cstate regs H1 H2 hwf
  have hmain : GetGraphicsPipeline env (GetGraphicsPipeline env st regs).2 regs
      = GetGraphicsPipeline env st regs := by
    rcases gg_cases env st regs with ⟨hearly, heq⟩ | ⟨hne, hok, heq⟩
        | ⟨p, hne, hok, halook, heq⟩ | ⟨hne, hok, hnone, heq⟩
    · rw [heq]; exact heq
    · have hp : ¬regs.primitive_type = .patch := fun h => hne (Or.inl h)
      have hm1 : ¬regs.color_control_mode = .eliminateFastClear :=
        fun h => hne (Or.inr (Or.inl h))
      have hm2 : ¬regs.color_control_mode = .fmaskDecompress :=
        fun h => hne (Or.inr (Or.inr (Or.inl h)))
      have hn : ¬regs.primitive_type = .noneType := fun h => hne (Or.inr (Or.inr (Or.inr h)))
      rw [heq]
      simp only [GetGraphicsPipeline, if_neg hp, if_neg hm1, if_neg hm2, if_neg hn]
      rw [hr2, hok]
      simp
    · have hp : ¬regs.primitive_type = .patch := fun h => hne (Or.inl h)
      have hm1 : ¬regs.color_control_mode = .eliminateFastClear :=
        fun h => hne (Or.inr (Or.inl h))
      have hm2 : ¬regs.color_control_mode = .fmaskDecompress :=
        fun h => hne (Or.inr (Or.inr (Or.inl h)))
      have hn : ¬regs.primitive_type = .noneType := fun h => hne (Or.inr (Or.inr (Or.inr h)))
      rw [heq]
      simp only [GetGraphicsPipeline, if_neg hp, if_neg hm1, if_neg hm2, if_neg hn]
      rw [hr2, hok, halook]
      simp
    · have hp : ¬regs.primitive_type = .patch := fun h => hne (Or.inl h)
      have hm1 : ¬regs.color_control_mode = .eliminateFastClear :=
        fun h => hne (Or.inr (Or.inl h))
      have hm2 : ¬regs.color_control_mode = .fmaskDecompress :=
        fun h => hne (Or.inr (Or.inr (Or.inl h)))
      have hn : ¬regs.primitive_type = .noneType := fun h => hne (Or.inr (Or.inr (Or.inr h)))
      rw [heq]
      simp only [GetGraphicsPipeline, if_neg hp, if_neg hm1, if_neg hm2, if_neg hn]
      rw [hr2, hok]
      simp [alook]
  exact ⟨hmain, by rw [hmain]⟩

/-- Witness for C4 with a concrete consistent translator and a valid
vertex+fragment draw from the empty cache. -/
theorem c4_witness :
    GetGraphicsPipeline envT (GetGraphicsPipeline envT PCState.initial regsVF).2 regsVF
      = GetGraphicsPipeline envT PCState.initial regsVF
    ∧ (GetGraphicsPipeline envT (GetGraphicsPipeline envT PCState.initial regsVF).2
        regsVF).2.cstate.translate_log
      = (GetGraphicsPipeline envT PCState.initial regsVF).2.cstate.translate_log :=
  c4_idempotent envT PCState.initial regsVF (fun _ _ => rfl) (fun _ _ _ => rfl)
    (fun h p hp => by simp [alook, PCState.initial] at hp)
